import Mathlib

/-!
Verification of `src/nanpack/hyperbolicsolvers.py` (NAnPack 1.0.0-alpha2).

Shallow embedding conventions:
* numpy float values are modelled by `ℚ`; a 1-D (or trailing-singleton)
  array by its shape tuple plus its flat contents (`NDArr`).  All array
  operations used by the source (elementwise arithmetic, axis-0 slicing
  `[1:-1]`, `[0:-2]`, `[2:]`, slice assignment) act on the flat contents,
  which is exact for 1-D arrays and for arrays whose trailing dimensions
  are all `1`.
* a Python call either returns a value (`Except.ok`) or raises
  (`Except.error`); `raise Exception(msg)` is `.error (.exception msg)`,
  and Python runtime faults that the source provokes (`range` of a shape
  tuple, arithmetic on a shape tuple, an undefined name, an out-of-range
  index) are `.error .typeError` / `.nameError` / `.indexError`.
* `cfg` field accesses are passed as explicit parameters (`Model`,
  `conv`, `iMax`).
* loops with explicit indices use Python indexing semantics: negative
  indices wrap, out-of-range indices raise IndexError.
-/

set_option linter.unusedVariables false

namespace Nanpack

/-- Python exception outcomes distinguished by the embedding. -/
inductive PyErr where
  | exception (msg : String)
  | typeError
  | nameError
  | indexError
  | syntaxError
deriving Repr, DecidableEq

/-- A numpy array: shape tuple plus flat contents.  Exact for 1-D arrays
and for arrays whose trailing dimensions are all 1 (the only shapes the
development evaluates). -/
structure NDArr where
  shape : List Nat
  data : List ℚ
deriving Repr, DecidableEq

/-- The message raised by every scheme when `len(Uo.shape) == 2`
(after Python's backslash line continuation is resolved). -/
def dim1DMsg : String :=
  "This formulation is only available for 1D first order wave equation or the inviscid Burgers equation in this version."

/-- `raise Exception("This formulation is not available for WAVE ...")`. -/
def waveNAMsg : String :=
  "This formulation is not available for WAVE equation in this version."

/-- `raise Exception("This formulation is not available for BURGERS ...")`. -/
def burgersNAMsg : String :=
  "This formulation is not available for BURGERS equation in this version."

/-! ### numpy elementwise / slicing primitives -/

/-- `l[1:-1]`. -/
def mid (l : List ℚ) : List ℚ := (l.drop 1).dropLast

/-- `l[0:-2]`. -/
def left (l : List ℚ) : List ℚ := l.dropLast.dropLast

/-- `l[2:]`. -/
def right (l : List ℚ) : List ℚ := l.drop 2

/-- elementwise `+` on equal-length numpy arrays. -/
def addL (a b : List ℚ) : List ℚ := List.zipWith (· + ·) a b

/-- elementwise `-`. -/
def subL (a b : List ℚ) : List ℚ := List.zipWith (· - ·) a b

/-- elementwise `*`. -/
def mulL (a b : List ℚ) : List ℚ := List.zipWith (· * ·) a b

/-- elementwise `/` (total on `ℚ`; every use in a settled claim has a
nonzero denominator, and the one 0/0 site the source can reach is noted
where it occurs). -/
def divL (a b : List ℚ) : List ℚ := List.zipWith (· / ·) a b

/-- scalar times array. -/
def smulL (c : ℚ) (a : List ℚ) : List ℚ := a.map (fun x => c * x)

/-- array divided by a scalar (`arr/2.0`, `arr/8.0`, ...). -/
def divCL (a : List ℚ) (c : ℚ) : List ℚ := a.map (fun x => x / c)

/-- `E = Uo*Uo/2`. -/
def fluxE (l : List ℚ) : List ℚ := l.map (fun u => u * u / 2)

/-- numpy slice assignment `U[1:-1] = v` (in the source `v` always has
length `len(U) - 2`; for `len(U) < 2` the slice is empty and the
assignment is a no-op). -/
def setMid (U v : List ℚ) : List ℚ :=
  if U.length < 2 then U
  else U.take 1 ++ v ++ U.drop (U.length - 1)

/-- Python list slice assignment `D[1:-1] = rhs`, which splices `rhs` in
(resizing the list when lengths differ). -/
def pySliceAssign1 (D rhs : List ℚ) : List ℚ :=
  D.take 1 ++ rhs ++ D.drop (max 1 (D.length - 1))

/-- `np.sign` on a scalar. -/
def sgn (q : ℚ) : ℚ := if 0 < q then 1 else if q < 0 then -1 else 0

/-- Python `str.upper()`, as used in every `cfg.Model.upper()` dispatch
(ASCII model strings). -/
def pyUpper (s : String) : String := ⟨s.data.map Char.toUpper⟩

/-- Python indexed read `l[i]`: negative indices wrap, out-of-range
raises IndexError. -/
def pyIdx (l : List ℚ) (i : ℤ) : Except PyErr ℚ :=
  if 0 ≤ i ∧ i < (l.length : ℤ) then .ok (l.getD i.toNat 0)
  else if -(l.length : ℤ) ≤ i ∧ i < 0 then .ok (l.getD (i + l.length).toNat 0)
  else .error .indexError

/-- Python indexed write `l[i] = v`. -/
def pySet (l : List ℚ) (i : ℤ) (v : ℚ) : Except PyErr (List ℚ) :=
  if 0 ≤ i ∧ i < (l.length : ℤ) then .ok (l.set i.toNat v)
  else if -(l.length : ℤ) ≤ i ∧ i < 0 then .ok (l.set (i + l.length).toNat v)
  else .error .indexError

/-- `range(a, b)` over the integers. -/
def pyRange (a b : ℤ) : List ℤ :=
  (List.range (b - a).toNat).map (fun k : ℕ => a + (k : ℤ))

/-- Sequential loop in the `Except` monad (a Python `for` whose body may
raise). -/
def loopM {σ : Type} (f : σ → ℤ → Except PyErr σ) : List ℤ → σ → Except PyErr σ
  | [], s => .ok s
  | i :: t, s =>
    match f s i with
    | .error e => .error e
    | .ok s2 => loopM f t s2

/-! ### The schemes (functional embedding)

Several functions bind `iMax = shapeU` — the *shape tuple*, not the node
count — and then run `range(iMax)` / `range(1, iMax-1)`: in Python both
raise `TypeError` (`range` of a tuple, tuple minus int).  Those branches
are embedded as `.error .typeError` with a comment citing the source
line.

The interior updates `U[1:-1] = ...` are shared, as named right-hand-side
helpers, with the buffer-level embedding further down. -/

/-- `Uo[1:-1] - 0.5*Courant*positive_a*(Uo[1:-1]-Uo[0:-2])
- 0.5*Courant*negative_a*(Uo[2:]-Uo[1:-1])` where
`positive_a = 1 + np.sign(conv)` and `negative_a = 1 - np.sign(conv)`
(source lines 102-106). -/
def upwindWaveRhs (conv Courant : ℚ) (d : List ℚ) : List ℚ :=
  subL
    (subL (mid d) (smulL (1/2 * Courant * (1 + sgn conv)) (subL (mid d) (left d))))
    (smulL (1/2 * Courant * (1 - sgn conv)) (subL (right d) (mid d)))

/-- `Uo[1:-1] - Courant*(E[1:-1]-E[0:-2])` with `E = Uo*Uo/2`
(source lines 109-110). -/
def upwindBurgRhs (Courant : ℚ) (d : List ℚ) : List ℚ :=
  subL (mid d) (smulL Courant (subL (mid (fluxE d)) (left (fluxE d))))

/-- `0.5*(Uo[2:]+Uo[0:-2]) - 0.5*Courant*(Uo[2:]-Uo[0:-2])`
(source lines 172-173). -/
def laxWaveRhs (Courant : ℚ) (d : List ℚ) : List ℚ :=
  subL (smulL (1/2) (addL (right d) (left d)))
       (smulL (1/2 * Courant) (subL (right d) (left d)))

/-- `0.5*(Uo[2:]+Uo[0:-2]) - 0.25*Courant*(E[2:]-E[0:-2])`
(source lines 176-178). -/
def laxBurgRhs (Courant : ℚ) (d : List ℚ) : List ℚ :=
  subL (smulL (1/2) (addL (right d) (left d)))
       (smulL (1/4 * Courant) (subL (right (fluxE d)) (left (fluxE d))))

/-- `ExplicitFirstUpwind(cfg, Uo, Courant)`, source lines 44-112.
`conv` is `cfg.conv` (the constant wave speed). -/
def ExplicitFirstUpwind (Model : String) (conv : ℚ) (Uo : NDArr) (Courant : ℚ) :
    Except PyErr NDArr :=
  if Uo.shape.length = 2 then .error (.exception dim1DMsg)
  else
    let d := Uo.data                        -- U = Uo.copy()
    if pyUpper Model = "FO_WAVE" then
      .ok ⟨Uo.shape, setMid d (upwindWaveRhs conv Courant d)⟩
    else if pyUpper Model = "INV_BURGERS" then
      .ok ⟨Uo.shape, setMid d (upwindBurgRhs Courant d)⟩
    else .ok ⟨Uo.shape, d⟩                  -- unmatched model: return the copy

/-- `Lax(cfg, Uo, Courant)`, source lines 115-180. -/
def Lax (Model : String) (Uo : NDArr) (Courant : ℚ) : Except PyErr NDArr :=
  if Uo.shape.length = 2 then .error (.exception dim1DMsg)
  else
    let d := Uo.data
    if pyUpper Model = "FO_WAVE" then
      .ok ⟨Uo.shape, setMid d (laxWaveRhs Courant d)⟩
    else if pyUpper Model = "INV_BURGERS" then
      .ok ⟨Uo.shape, setMid d (laxBurgRhs Courant d)⟩
    else .ok ⟨Uo.shape, d⟩

/-- `MidpointLeapfrog(cfg, Uo, Courant)`, source lines 183-247: both
recognized models raise; for any other model the `return U` is commented
out, so the function returns Python `None` (modelled as `.ok none`). -/
def MidpointLeapfrog (Model : String) (Uo : NDArr) (Courant : ℚ) :
    Except PyErr (Option NDArr) :=
  if Uo.shape.length = 2 then .error (.exception dim1DMsg)
  else if pyUpper Model = "FO_WAVE" then .error (.exception waveNAMsg)
  else if pyUpper Model = "INV_BURGERS" then .error (.exception burgersNAMsg)
  else .ok none

/-- `Uo[1:-1] - 0.5*Courant*(Uo[2:]-Uo[0:-2])
+ 0.5*Courant2*(Uo[2:] - 2.0*Uo[1:-1] + Uo[0:-2])` (source lines
307-309). -/
def lwWaveRhs (Courant : ℚ) (d : List ℚ) : List ℚ :=
  addL
    (subL (mid d) (smulL (1/2 * Courant) (subL (right d) (left d))))
    (smulL (1/2 * (Courant * Courant))
      (addL (subL (right d) (smulL 2 (mid d))) (left d)))

/-- `Uo[1:-1] - 0.5*Courant*(E[2:]-E[0:-2])
+ 0.25*Courant2*((Uo[2:]+Uo[1:-1])*(E[2:]-E[1:-1])
- (Uo[1:-1]+Uo[0:-2])*(E[1:-1]-E[0:-2]))` with `E = Uo*Uo/2` (source
lines 312-316). -/
def lwBurgRhs (Courant : ℚ) (d : List ℚ) : List ℚ :=
  let E := fluxE d
  addL
    (subL (mid d) (smulL (1/2 * Courant) (subL (right E) (left E))))
    (smulL (1/4 * (Courant * Courant))
      (subL (mulL (addL (right d) (mid d)) (subL (right E) (mid E)))
            (mulL (addL (mid d) (left d)) (subL (mid E) (left E)))))

/-- `LaxWendroff(cfg, Uo, Courant)`, source lines 250-318. -/
def LaxWendroff (Model : String) (Uo : NDArr) (Courant : ℚ) : Except PyErr NDArr :=
  if Uo.shape.length = 2 then .error (.exception dim1DMsg)
  else
    let d := Uo.data
    if pyUpper Model = "FO_WAVE" then
      .ok ⟨Uo.shape, setMid d (lwWaveRhs Courant d)⟩
    else if pyUpper Model = "INV_BURGERS" then
      .ok ⟨Uo.shape, setMid d (lwBurgRhs Courant d)⟩
    else .ok ⟨Uo.shape, d⟩

/-- One iteration of the `for i in range(1, cfg.iMax-1)` loop of
`LaxWendroffMultiStep`'s FO_WAVE branch (source lines 370-372); the loop
state is `(U, Uhalf)`. -/
def LWMSStep (Uo : List ℚ) (Courant : ℚ) (s : List ℚ × List ℚ) (i : ℤ) :
    Except PyErr (List ℚ × List ℚ) :=
  -- Uhalf[i] = 0.5*(Uo[i+1]+Uo[i]) - 0.5*Courant*(Uo[i+1]-Uo[i])
  match pyIdx Uo (i + 1) with
  | .error e => .error e
  | .ok up =>
  match pyIdx Uo i with
  | .error e => .error e
  | .ok ui =>
  match pySet s.2 i (1/2 * (up + ui) - 1/2 * Courant * (up - ui)) with
  | .error e => .error e
  | .ok uhalf =>
  -- U[i] = Uo[i] - Courant*(Uhalf[i]-Uhalf[i-1])
  match pyIdx uhalf i with
  | .error e => .error e
  | .ok hi =>
  match pyIdx uhalf (i - 1) with
  | .error e => .error e
  | .ok him =>
  match pySet s.1 i (ui - Courant * (hi - him)) with
  | .error e => .error e
  | .ok u => .ok (u, uhalf)

/-- `LaxWendroffMultiStep(cfg, Uo, Courant)`, source lines 321-378.
`iMax` is `cfg.iMax`. -/
def LaxWendroffMultiStep (Model : String) (iMax : ℤ) (Uo : NDArr) (Courant : ℚ) :
    Except PyErr NDArr :=
  if Uo.shape.length = 2 then .error (.exception dim1DMsg)
  else if pyUpper Model = "FO_WAVE" then
    match loopM (LWMSStep Uo.data Courant) (pyRange 1 (iMax - 1)) (Uo.data, Uo.data) with
    | .ok s => .ok ⟨Uo.shape, s.1⟩
    | .error e => .error e
  else if pyUpper Model = "INV_BURGERS" then .error (.exception burgersNAMsg)
  else .ok ⟨Uo.shape, Uo.data⟩

/-- `MacCormack(cfg, Uo, Courant, diffX)`, source lines 381-479.  Every
implemented-model branch faults: the wave and inviscid branches run
`range(1, iMax-1)` with `iMax = shapeU` (the shape tuple, line 450), a
TypeError; the viscous branch evaluates `c = A*Courant` (line 470) where
no name `A` is in scope, a NameError. -/
def MacCormack (Model : String) (Uo : NDArr) (Courant diffX : ℚ) :
    Except PyErr NDArr :=
  if Uo.shape.length = 2 then .error (.exception dim1DMsg)
  else if pyUpper Model = "FO_WAVE" then .error .typeError
  else if pyUpper Model = "INV_BURGERS" then .error .typeError
  else if pyUpper Model = "VISC_BURGERS" then .error .nameError
  else .ok ⟨Uo.shape, Uo.data⟩              -- unmatched model: return the copy

/-- A Runge-Kutta stage right-hand side
`Uo[1:-1] - c*(V[2:]-V[0:-2])/den` — `V` is the state (wave model) or
the flux array (Burgers models) feeding the stage. -/
def stageRhs (c den : ℚ) (d v : List ℚ) : List ℚ :=
  subL (mid d) (divCL (smulL c (subL (right v) (left v))) den)

/-- The fourth (combining) stage of `FourthOrderRungeKutta`:
`Uo[1:-1] - 0.5*Courant*((1/6)*(V0[2:]-V0[0:-2]) + (1/3)*(V1[2:]-V1[0:-2])
+ (1/3)*(V2[2:]-V2[0:-2]) + (1/6)*(V3[2:]-V3[0:-2]))` (source lines
549-554 and 571-576). -/
def rk4FinalRhs (Courant : ℚ) (d v0 v1 v2 v3 : List ℚ) : List ℚ :=
  subL (mid d) (smulL (1/2 * Courant)
    (addL (addL (addL (smulL (1/6) (subL (right v0) (left v0)))
                      (smulL (1/3) (subL (right v1) (left v1))))
                (smulL (1/3) (subL (right v2) (left v2))))
          (smulL (1/6) (subL (right v3) (left v3)))))

/-- The viscous correction stage of `ModifiedRungeKutta`:
`U[1:-1] + diffX*(U[2:] - 2.0*U[1:-1] + U[0:-2])` (source line 672). -/
def mrkViscRhs (diffX : ℚ) (u : List ℚ) : List ℚ :=
  addL (mid u) (smulL diffX (addL (subL (right u) (smulL 2 (mid u))) (left u)))

/-- `FourthOrderRungeKutta(cfg, Uo, Courant)`, source lines 482-578. -/
def FourthOrderRungeKutta (Model : String) (Uo : NDArr) (Courant : ℚ) :
    Except PyErr NDArr :=
  if Uo.shape.length = 2 then .error (.exception dim1DMsg)
  else
    let d := Uo.data
    if pyUpper Model = "FO_WAVE" then
      -- U1[1:-1] = Uo[1:-1] - 0.5*Courant*(Uo[2:]-Uo[0:-2])/2.0  (etc.)
      let u1 := setMid d (stageRhs (1/2 * Courant) 2 d d)
      let u2 := setMid d (stageRhs (1/2 * Courant) 2 d u1)
      let u3 := setMid d (stageRhs Courant 2 d u2)
      .ok ⟨Uo.shape, setMid d (rk4FinalRhs Courant d d u1 u2 u3)⟩
    else if pyUpper Model = "INV_BURGERS" then
      let E1 := fluxE d
      let u1 := setMid d (stageRhs (1/2 * Courant) 2 d E1)
      let E2 := fluxE u1
      let u2 := setMid d (stageRhs (1/2 * Courant) 2 d E2)
      let E3 := fluxE u2
      let u3 := setMid d (stageRhs Courant 2 d E3)
      let E4 := fluxE u3
      .ok ⟨Uo.shape, setMid d (rk4FinalRhs Courant d E1 E2 E3 E4)⟩
    else .ok ⟨Uo.shape, d⟩

/-- `ModifiedRungeKutta(cfg, Uo, Courant, diffX)`, source lines 581-674.
Each stage reads the interior of `Uo` and the slices of the *current*
`U` (`U[1:-1] = Uo[1:-1] - Courant*(U[2:]-U[0:-2])/8.0`, then `/6.0`,
`/4.0`, `/2.0`; the Burgers models feed `E = U*U/2`, recomputed from the
evolving `U`, into each stage). -/
def ModifiedRungeKutta (Model : String) (Uo : NDArr) (Courant diffX : ℚ) :
    Except PyErr NDArr :=
  if Uo.shape.length = 2 then .error (.exception dim1DMsg)
  else
    let d := Uo.data
    if pyUpper Model = "FO_WAVE" then
      let u1 := setMid d (stageRhs Courant 8 d d)
      let u2 := setMid u1 (stageRhs Courant 6 d u1)
      let u3 := setMid u2 (stageRhs Courant 4 d u2)
      let u4 := setMid u3 (stageRhs Courant 2 d u3)
      .ok ⟨Uo.shape, u4⟩
    else if pyUpper Model = "INV_BURGERS" ∨ pyUpper Model = "VISC_BURGERS" then
      let u1 := setMid d (stageRhs Courant 8 d (fluxE d))
      let u2 := setMid u1 (stageRhs Courant 6 d (fluxE u1))
      let u3 := setMid u2 (stageRhs Courant 4 d (fluxE u2))
      let u4 := setMid u3 (stageRhs Courant 2 d (fluxE u3))
      if pyUpper Model = "VISC_BURGERS" then
        .ok ⟨Uo.shape, setMid u4 (mrkViscRhs diffX u4)⟩
      else .ok ⟨Uo.shape, u4⟩
    else .ok ⟨Uo.shape, d⟩

/-- `EulersBTCS(cfg, Uo, Courant, diffX)`, source lines 677-769.  The
wave branch runs `A = [cc for i in range(iMax)]` and the viscous branch
`a = [(-diffX - A[i]*cc) for i in range(iMax)]` with `iMax = shapeU`
(the shape tuple, line 740): `range` of a tuple raises TypeError, so
neither branch ever reaches the tridiagonal solve. -/
def EulersBTCS (Model : String) (Uo : NDArr) (Courant diffX : ℚ) :
    Except PyErr NDArr :=
  if Uo.shape.length = 2 then .error (.exception dim1DMsg)
  else if pyUpper Model = "FO_WAVE" then .error .typeError
  else if pyUpper Model = "INV_BURGERS" then .error (.exception burgersNAMsg)
  else if pyUpper Model = "VISC_BURGERS" then .error .typeError
  else .ok ⟨Uo.shape, Uo.data⟩

/-- Forward-elimination step of the modelled Thomas algorithm: state is
`(H, G)`. -/
def tridForwardStep (A B C D : List ℚ) (s : List ℚ × List ℚ) (i : ℤ) :
    Except PyErr (List ℚ × List ℚ) :=
  match pyIdx A i with
  | .error e => .error e
  | .ok ai =>
  match pyIdx B i with
  | .error e => .error e
  | .ok bi =>
  match pyIdx C i with
  | .error e => .error e
  | .ok ci =>
  match pyIdx D i with
  | .error e => .error e
  | .ok di =>
  match pyIdx s.1 (i - 1) with
  | .error e => .error e
  | .ok him =>
  match pyIdx s.2 (i - 1) with
  | .error e => .error e
  | .ok gim =>
  match pySet s.1 i (ci / (bi - ai * him)) with
  | .error e => .error e
  | .ok h =>
  match pySet s.2 i ((di - ai * gim) / (bi - ai * him)) with
  | .error e => .error e
  | .ok g => .ok (h, g)

/-- Back-substitution step of the modelled Thomas algorithm, writing into
the interior of `UU`. -/
def tridBackStep (H G : List ℚ) (UU : List ℚ) (i : ℤ) : Except PyErr (List ℚ) :=
  match pyIdx H i with
  | .error e => .error e
  | .ok hi =>
  match pyIdx G i with
  | .error e => .error e
  | .ok gi =>
  match pyIdx UU (i + 1) with
  | .error e => .error e
  | .ok uip => pySet UU i (gi - hi * uip)

/-- Modelled from the spec: `nanpack.tridiagonal.TridiagonalSolver` is
imported by the implicit schemes but its module is not under `src/`.
Per spec section 4.1 it is the Thomas algorithm — a forward-elimination sweep
followed by back substitution over the interior rows `1..iMax-2` — a pure
function of its inputs that writes the solution into the interior of the
supplied buffer `UU`; boundary entries of `UU` come back unchanged (spec
section 3: boundary nodes are never overwritten by a scheme).  Indexed access
keeps Python semantics (IndexError when the caller's `iMax` disagrees
with the coefficient-list lengths); division is total `ℚ` division (the
spec makes diagonal dominance the caller's responsibility and forbids
validating it).  The claims below rely only on this function's frame
behaviour (which entries it can write), shared by every Thomas variant. -/
def TridiagonalSolver (iMax : ℤ) (A B C D UU : List ℚ) : Except PyErr (List ℚ) :=
  match loopM (tridForwardStep A B C D) (pyRange 1 (iMax - 1))
      (List.replicate iMax.toNat 0, List.replicate iMax.toNat 0) with
  | .error e => .error e
  | .ok s => loopM (tridBackStep s.1 s.2) (pyRange 1 (iMax - 1)).reverse UU

/-- `-Uo[1:-1] + 0.25*Courant*(Uo[2:]-Uo[0:-2])`, the interior
right-hand side of Crank-Nicolson (source line 827). -/
def cnDRhs (Courant : ℚ) (d : List ℚ) : List ℚ :=
  addL (smulL (-1) (mid d)) (smulL (1/4 * Courant) (subL (right d) (left d)))

/-- `CrankNicolson(cfg, Uo, Courant)`, source lines 772-836.  `iMax` is
`cfg.iMax` (an int — this function does not rebind it to the shape).
`D` is a Python list, so `D[1:-1] = ...` is a list splice. -/
def CrankNicolson (Model : String) (iMax : ℤ) (Uo : NDArr) (Courant : ℚ) :
    Except PyErr NDArr :=
  if Uo.shape.length = 2 then .error (.exception dim1DMsg)
  else if pyUpper Model = "FO_WAVE" then
    let cc := 1/4 * Courant
    let A := List.replicate iMax.toNat cc         -- [cc for i in range(cfg.iMax)]
    let B := List.replicate iMax.toNat (-1 : ℚ)
    let C := List.replicate iMax.toNat (-cc)
    let D0 := List.replicate iMax.toNat (0 : ℚ)
    let d := Uo.data
    let D := pySliceAssign1 D0 (cnDRhs Courant d)
    match TridiagonalSolver iMax A B C D d with   -- UU = Uo.copy()
    | .ok u => .ok ⟨Uo.shape, u⟩
    | .error e => .error e
  else if pyUpper Model = "INV_BURGERS" then .error (.exception burgersNAMsg)
  else .ok ⟨Uo.shape, Uo.data⟩

/-- `BeamAndWarming(cfg, Uo, Courant)`, source lines 839-910.  The
inviscid branch runs `A = [-cc*Uo[i-1] for i in range(iMax)]` with
`iMax = shapeU` (the shape tuple, line 895): TypeError before the solve. -/
def BeamAndWarming (Model : String) (Uo : NDArr) (Courant : ℚ) :
    Except PyErr NDArr :=
  if Uo.shape.length = 2 then .error (.exception dim1DMsg)
  else if pyUpper Model = "FO_WAVE" then .error (.exception waveNAMsg)
  else if pyUpper Model = "INV_BURGERS" then .error .typeError
  else .ok ⟨Uo.shape, Uo.data⟩

/-- Modelled from the spec: `nanpack.secondaryfunctions.CalcUi` (imported
by `FirstOrderTVD`; its module is not under `src/`) computes the state
difference across a face: spec section 4.4 calls `alpha` "the flux difference
divided by the state difference across the two adjacent faces". -/
def CalcUi (U1 U2 : ℚ) : ℚ := U1 - U2

/-- `alphaiPlus12` of `FirstOrderTVD` (source lines 975-978): the local
characteristic speed at the right face, `(E[i+1]-E[i])/dUiPlus12`, with
fallback `Uo[i]` when `dUiPlus12 == 0`. -/
def alphaiPlus12 (Uo E : List ℚ) (i : ℤ) : Except PyErr ℚ :=
  match pyIdx Uo (i + 1) with
  | .error e => .error e
  | .ok up =>
  match pyIdx Uo i with
  | .error e => .error e
  | .ok ui =>
  if CalcUi up ui = 0 then .ok ui
  else
    match pyIdx E (i + 1) with
    | .error e => .error e
    | .ok eip =>
    match pyIdx E i with
    | .error e => .error e
    | .ok ei => .ok ((eip - ei) / CalcUi up ui)

/-- `alphaiMinus12` of `FirstOrderTVD` (source lines 980-983): the local
characteristic speed at the left face, `(E[i]-E[i-1])/dUiMinus12`, with
fallback `Uo[i]` when `dUiMinus12 == 0`. -/
def alphaiMinus12 (Uo E : List ℚ) (i : ℤ) : Except PyErr ℚ :=
  match pyIdx Uo i with
  | .error e => .error e
  | .ok ui =>
  match pyIdx Uo (i - 1) with
  | .error e => .error e
  | .ok uim =>
  if CalcUi ui uim = 0 then .ok ui
  else
    match pyIdx E i with
    | .error e => .error e
    | .ok ei =>
    match pyIdx E (i - 1) with
    | .error e => .error e
    | .ok eim => .ok ((ei - eim) / CalcUi ui uim)

/-- One iteration of the `for i in range(1, cfg.iMax-1)` loop of
`FirstOrderTVD` (source lines 971-989). -/
def FirstOrderTVDStep (Uo E : List ℚ) (Courant : ℚ) (U : List ℚ) (i : ℤ) :
    Except PyErr (List ℚ) :=
  match pyIdx Uo (i + 1) with
  | .error e => .error e
  | .ok up =>
  match pyIdx Uo i with
  | .error e => .error e
  | .ok ui =>
  match pyIdx Uo (i - 1) with
  | .error e => .error e
  | .ok uim =>
  match alphaiPlus12 Uo E i with
  | .error e => .error e
  | .ok alphaP =>
  match alphaiMinus12 Uo E i with
  | .error e => .error e
  | .ok alphaM =>
  -- phiPlus = abs(alphaiPlus12)*dUiPlus12 ; phiMinus likewise;
  -- Utemp = Uo[i] - 0.5*Courant*(E[i+1]-E[i-1]);
  -- U[i] = Utemp + 0.5*Courant*(phiPlus-phiMinus)
  match pyIdx E (i + 1) with
  | .error e => .error e
  | .ok eip =>
  match pyIdx E (i - 1) with
  | .error e => .error e
  | .ok eim =>
  pySet U i (ui - 1/2 * Courant * (eip - eim)
    + 1/2 * Courant * (|alphaP| * CalcUi up ui - |alphaM| * CalcUi ui uim))

/-- `FirstOrderTVD(cfg, Uo, Courant)`, source lines 913-991.  Any model
other than FO_WAVE (the code never tests for a Burgers string here)
proceeds into the update loop, which runs over `range(1, cfg.iMax-1)`. -/
def FirstOrderTVD (Model : String) (iMax : ℤ) (Uo : NDArr) (Courant : ℚ) :
    Except PyErr NDArr :=
  if Uo.shape.length = 2 then .error (.exception dim1DMsg)
  else if pyUpper Model = "FO_WAVE" then .error (.exception waveNAMsg)
  else
    let d := Uo.data
    let E := fluxE d
    match loopM (FirstOrderTVDStep d E Courant) (pyRange 1 (iMax - 1)) d with
    | .ok u => .ok ⟨Uo.shape, u⟩
    | .error e => .error e

/-- The (fixed prefix of the) message raised by `SecondOrderTVD` for an
unknown limiter-function name; the source interpolates the option list
into it, which no claim inspects. -/
def invalidLimiterMsg : String :=
  "Invalid flux limiter function selection in the call to function SecondOrderTVD()."

/-- `SecondOrderTVD(cfg, Uo, Courant, LimiterFunc, Limiter, Eps)`, source
lines 994-1080.  `limfuncOptions` stands for the allow-list returned by
the external `backend.fetchoptions.FetchOptions` (modelled from the spec:
the module is not under `src/`).  An unknown limiter name raises; a valid
one reaches `for i in range(2, iMax-2)` with `iMax = shapeU` (the shape
tuple, line 1049), a TypeError — so no call returns a state. -/
def SecondOrderTVD (Model : String) (Uo : NDArr) (Courant : ℚ)
    (LimiterFunc Limiter : String) (Eps : ℚ) (limfuncOptions : List String) :
    Except PyErr NDArr :=
  if Uo.shape.length = 2 then .error (.exception dim1DMsg)
  else if pyUpper Model = "FO_WAVE" then .error (.exception waveNAMsg)
  else if LimiterFunc ∈ limfuncOptions then .error .typeError
  else .error (.exception invalidLimiterMsg)

/-- `(E[2:]-E[1:-1]) / (Uo[2:]-Uo[1:-1])` with `E = Uo*Uo/2`: the
face-averaged Jacobian slice stored into `A[1:-1]` by `FTCS`/`FTBCS`
(source lines 1222-1223 and 1294-1295).  numpy turns a 0/0 here into
NaN; the total `ℚ` division is relied on below only at inputs whose face
differences are nonzero. -/
def faceJacobianRhs (d : List ℚ) : List ℚ :=
  divL (subL (right (fluxE d)) (mid (fluxE d))) (subL (right d) (mid d))

/-- `Uo[1:-1] - 0.5*0.5*Courant*(A[2:]+A[0:-2])*(Uo[2:]-Uo[0:-2])
+ diffX*(Uo[2:] - 2.0*Uo[1:-1] + Uo[0:-2])` (source lines 1224-1226). -/
def ftcsRhs (Courant diffX : ℚ) (d A : List ℚ) : List ℚ :=
  addL
    (subL (mid d) (smulL (1/2 * (1/2) * Courant)
      (mulL (addL (right A) (left A)) (subL (right d) (left d)))))
    (smulL diffX (addL (subL (right d) (smulL 2 (mid d))) (left d)))

/-- `Uo[1:-1] - 0.5*Courant*(A[2:]+A[0:-2])*(Uo[1:-1]-Uo[0:-2])
+ diffX*(Uo[2:] - 2.0*Uo[1:-1] + Uo[0:-2])` (source lines 1296-1298). -/
def ftbcsRhs (Courant diffX : ℚ) (d A : List ℚ) : List ℚ :=
  addL
    (subL (mid d) (smulL (1/2 * Courant)
      (mulL (addL (right A) (left A)) (subL (mid d) (left d)))))
    (smulL diffX (addL (subL (right d) (smulL 2 (mid d))) (left d)))

/-- `FTCS(cfg, Uo, Courant, diffX)`, source lines 1160-1228.  Note that
the INV_BURGERS branch raises the *WAVE* message (lines 1216-1218), and
that any model other than the two rejected strings — not only
VISC_BURGERS — falls through into the viscous computation. -/
def FTCS (Model : String) (Uo : NDArr) (Courant diffX : ℚ) : Except PyErr NDArr :=
  if Uo.shape.length = 2 then .error (.exception dim1DMsg)
  else if pyUpper Model = "FO_WAVE" then .error (.exception waveNAMsg)
  else if pyUpper Model = "INV_BURGERS" then .error (.exception waveNAMsg)
  else
    let d := Uo.data
    -- A = Uo.copy(); A[1:-1] = (E[2:]-E[1:-1]) / (Uo[2:]-Uo[1:-1])
    let A := setMid d (faceJacobianRhs d)
    .ok ⟨Uo.shape, setMid d (ftcsRhs Courant diffX d A)⟩

/-- `FTBCS(cfg, Uo, Courant, diffX)`, source lines 1231-1300: as `FTCS`
but with backward differencing `(Uo[1:-1]-Uo[0:-2])` on the convective
term. -/
def FTBCS (Model : String) (Uo : NDArr) (Courant diffX : ℚ) : Except PyErr NDArr :=
  if Uo.shape.length = 2 then .error (.exception dim1DMsg)
  else if pyUpper Model = "FO_WAVE" then .error (.exception waveNAMsg)
  else if pyUpper Model = "INV_BURGERS" then .error (.exception waveNAMsg)
  else
    let d := Uo.data
    let A := setMid d (faceJacobianRhs d)
    .ok ⟨Uo.shape, setMid d (ftbcsRhs Courant diffX d A)⟩

/-- `DuFortFrankel(cfg, Uo, Uo2, Courant, diffX)`, source lines
1303-1373.  Both rejection branches raise the *WAVE* message; any other
model reaches `for i in range(1, iMax)` with `iMax = shapeU` (the shape
tuple, line 1366): TypeError on every call (the loop body would also
reference an undefined name `d`). -/
def DuFortFrankel (Model : String) (Uo Uo2 : NDArr) (Courant diffX : ℚ) :
    Except PyErr NDArr :=
  if Uo.shape.length = 2 then .error (.exception dim1DMsg)
  else if pyUpper Model = "FO_WAVE" then .error (.exception waveNAMsg)
  else if pyUpper Model = "INV_BURGERS" then .error (.exception waveNAMsg)
  else .error .typeError

/-- `BTBCS(cfg, Uo, Courant, diffX, Accuracy)`, source lines 1376-1458.
The body is not valid Python: `th={"1"=1.0, "2"=1.0, "3"=0.0, "4"=0.0}`
(line 1440) is a SyntaxError, as is the unbalanced bracket in
`A[1:-1] = ([E[2:]-E[0:-2]) / (Uo[2:]-Uo[0:-2])` (line 1450); importing
the module therefore fails and no call to `BTBCS` can ever execute, let
alone select a weight table or raise the InvalidOption message.  (Even
with the literals repaired, `th(1)` calls a dict and `Accuracy.lower`
is compared uncalled.)  The embedding records this import-time failure. -/
def BTBCS (Model : String) (Uo : NDArr) (Courant diffX : ℚ) (Accuracy : String) :
    Except PyErr NDArr :=
  .error .syntaxError

/-! ### Buffer-level embedding (copy-on-write)

The functional embedding above gives each call's result; to state that a
scheme never writes into the array object it receives, each scheme is
re-traversed against an explicit buffer store.  Buffer `0` holds the
caller's `Uo` contents (buffer `1` holds `Uo2`'s for `DuFortFrankel`);
`X = Uo.copy()` allocates a fresh buffer; every element or slice
assignment whose target is an existing array (`U[1:-1] = ...`,
`A[1:-1] = ...`, `Uhalf[i] = ...`, `UU[i] = ...`) is a store to the
buffer its target names.  Whole-array expressions (`E = Uo*Uo/2`,
`D = -Uo`, Python lists, scalars) create fresh values and involve no
store into an existing buffer, so they stay pure.  Each `...Mem`
function returns the final state of the store — also on raising paths,
so that partial execution is accounted for. -/

/-- The buffer store: buffer contents by index. -/
abbrev Store := List (List ℚ)

/-- Contents of buffer `i`. -/
def Store.getB (s : Store) (i : Nat) : List ℚ := s.getD i []

/-- Overwrite buffer `i`. -/
def Store.putB (s : Store) (i : Nat) (v : List ℚ) : Store := s.set i v

/-- A Python `for` loop at the buffer level: the body either produces a
new state or raises, in which case the state reached so far is kept. -/
def loopSt {σ : Type} (f : σ → ℤ → Option PyErr × σ) : List ℤ → σ → Option PyErr × σ
  | [], s => (none, s)
  | i :: t, s =>
    match f s i with
    | (some e, s2) => (some e, s2)
    | (none, s2) => loopSt f t s2

/-- `ExplicitFirstUpwind` at the buffer level: buffer 1 is
`U = Uo.copy()`; the body's only store is `U[1:-1] = ...`. -/
def ExplicitFirstUpwindMem (Model : String) (conv : ℚ) (shape : List Nat)
    (Uo : List ℚ) (Courant : ℚ) : Store :=
  if shape.length = 2 then [Uo]
  else
    let s : Store := [Uo, Uo]                  -- U = Uo.copy()
    if pyUpper Model = "FO_WAVE" then
      s.putB 1 (setMid (s.getB 1) (upwindWaveRhs conv Courant (s.getB 0)))
    else if pyUpper Model = "INV_BURGERS" then
      s.putB 1 (setMid (s.getB 1) (upwindBurgRhs Courant (s.getB 0)))
    else s

/-- `Lax` at the buffer level: buffer 1 is `U = Uo.copy()`. -/
def LaxMem (Model : String) (shape : List Nat) (Uo : List ℚ) (Courant : ℚ) :
    Store :=
  if shape.length = 2 then [Uo]
  else
    let s : Store := [Uo, Uo]
    if pyUpper Model = "FO_WAVE" then
      s.putB 1 (setMid (s.getB 1) (laxWaveRhs Courant (s.getB 0)))
    else if pyUpper Model = "INV_BURGERS" then
      s.putB 1 (setMid (s.getB 1) (laxBurgRhs Courant (s.getB 0)))
    else s

/-- `MidpointLeapfrog` at the buffer level: `U = Uo.copy()` is allocated
and then every recognized branch raises (and the fall-through stores
nothing). -/
def MidpointLeapfrogMem (Model : String) (shape : List Nat) (Uo : List ℚ)
    (Courant : ℚ) : Store :=
  if shape.length = 2 then [Uo] else [Uo, Uo]

/-- `LaxWendroff` at the buffer level: buffer 1 is `U = Uo.copy()`. -/
def LaxWendroffMem (Model : String) (shape : List Nat) (Uo : List ℚ)
    (Courant : ℚ) : Store :=
  if shape.length = 2 then [Uo]
  else
    let s : Store := [Uo, Uo]
    if pyUpper Model = "FO_WAVE" then
      s.putB 1 (setMid (s.getB 1) (lwWaveRhs Courant (s.getB 0)))
    else if pyUpper Model = "INV_BURGERS" then
      s.putB 1 (setMid (s.getB 1) (lwBurgRhs Courant (s.getB 0)))
    else s

/-- One loop iteration of `LaxWendroffMultiStep` at the buffer level:
buffer 1 is `U`, buffer 2 is `Uhalf`; stores go to `Uhalf[i]` and
`U[i]` only. -/
def LWMSStepMem (Courant : ℚ) (s : Store) (i : ℤ) : Option PyErr × Store :=
  match pyIdx (s.getB 0) (i + 1) with
  | .error e => (some e, s)
  | .ok up =>
  match pyIdx (s.getB 0) i with
  | .error e => (some e, s)
  | .ok ui =>
  match pySet (s.getB 2) i (1/2 * (up + ui) - 1/2 * Courant * (up - ui)) with
  | .error e => (some e, s)
  | .ok uh =>
  let s := s.putB 2 uh
  match pyIdx (s.getB 2) i with
  | .error e => (some e, s)
  | .ok hi =>
  match pyIdx (s.getB 2) (i - 1) with
  | .error e => (some e, s)
  | .ok him =>
  match pySet (s.getB 1) i (ui - Courant * (hi - him)) with
  | .error e => (some e, s)
  | .ok u => (none, s.putB 1 u)

/-- `LaxWendroffMultiStep` at the buffer level: buffers 1 and 2 are
`U = Uo.copy()` and `Uhalf = Uo.copy()`. -/
def LaxWendroffMultiStepMem (Model : String) (iMax : ℤ) (shape : List Nat)
    (Uo : List ℚ) (Courant : ℚ) : Store :=
  if shape.length = 2 then [Uo]
  else
    let s : Store := [Uo, Uo, Uo]
    if pyUpper Model = "FO_WAVE" then
      (loopSt (LWMSStepMem Courant) (pyRange 1 (iMax - 1)) s).2
    else s

/-- `MacCormack` at the buffer level: `U` and `Utemp` are allocated as
copies, and then every implemented-model branch faults before its first
element store (`range(1, iMax-1)` on the shape tuple, or the undefined
name `A`); the fall-through stores nothing. -/
def MacCormackMem (Model : String) (shape : List Nat) (Uo : List ℚ)
    (Courant diffX : ℚ) : Store :=
  if shape.length = 2 then [Uo] else [Uo, Uo, Uo]

/-- `FourthOrderRungeKutta` at the buffer level: buffer 1 is `U`,
buffers 2-4 are `U1`, `U2`, `U3` (all `.copy()`s of `Uo`); each stage
stores one slice. -/
def FourthOrderRungeKuttaMem (Model : String) (shape : List Nat) (Uo : List ℚ)
    (Courant : ℚ) : Store :=
  if shape.length = 2 then [Uo]
  else
    let s : Store := [Uo, Uo]                  -- U = Uo.copy()
    if pyUpper Model = "FO_WAVE" then
      let s := s ++ [Uo, Uo, Uo]               -- U1, U2, U3 = Uo.copy()
      let d := s.getB 0
      let s := s.putB 2 (setMid (s.getB 2) (stageRhs (1/2 * Courant) 2 d (s.getB 0)))
      let s := s.putB 3 (setMid (s.getB 3) (stageRhs (1/2 * Courant) 2 d (s.getB 2)))
      let s := s.putB 4 (setMid (s.getB 4) (stageRhs Courant 2 d (s.getB 3)))
      s.putB 1 (setMid (s.getB 1)
        (rk4FinalRhs Courant d d (s.getB 2) (s.getB 3) (s.getB 4)))
    else if pyUpper Model = "INV_BURGERS" then
      let s := s ++ [Uo, Uo, Uo]
      let d := s.getB 0
      let s := s.putB 2 (setMid (s.getB 2) (stageRhs (1/2 * Courant) 2 d (fluxE (s.getB 0))))
      let s := s.putB 3 (setMid (s.getB 3) (stageRhs (1/2 * Courant) 2 d (fluxE (s.getB 2))))
      let s := s.putB 4 (setMid (s.getB 4) (stageRhs Courant 2 d (fluxE (s.getB 3))))
      s.putB 1 (setMid (s.getB 1)
        (rk4FinalRhs Courant d (fluxE d) (fluxE (s.getB 2)) (fluxE (s.getB 3))
          (fluxE (s.getB 4))))
    else s

/-- `ModifiedRungeKutta` at the buffer level: every stage stores into
buffer 1 (`U`). -/
def ModifiedRungeKuttaMem (Model : String) (shape : List Nat) (Uo : List ℚ)
    (Courant diffX : ℚ) : Store :=
  if shape.length = 2 then [Uo]
  else
    let s : Store := [Uo, Uo]
    let d := Uo
    if pyUpper Model = "FO_WAVE" then
      let s := s.putB 1 (setMid (s.getB 1) (stageRhs Courant 8 d (s.getB 1)))
      let s := s.putB 1 (setMid (s.getB 1) (stageRhs Courant 6 d (s.getB 1)))
      let s := s.putB 1 (setMid (s.getB 1) (stageRhs Courant 4 d (s.getB 1)))
      s.putB 1 (setMid (s.getB 1) (stageRhs Courant 2 d (s.getB 1)))
    else if pyUpper Model = "INV_BURGERS" ∨ pyUpper Model = "VISC_BURGERS" then
      let s := s.putB 1 (setMid (s.getB 1) (stageRhs Courant 8 d (fluxE (s.getB 1))))
      let s := s.putB 1 (setMid (s.getB 1) (stageRhs Courant 6 d (fluxE (s.getB 1))))
      let s := s.putB 1 (setMid (s.getB 1) (stageRhs Courant 4 d (fluxE (s.getB 1))))
      let s := s.putB 1 (setMid (s.getB 1) (stageRhs Courant 2 d (fluxE (s.getB 1))))
      if pyUpper Model = "VISC_BURGERS" then
        s.putB 1 (setMid (s.getB 1) (mrkViscRhs diffX (s.getB 1)))
      else s
    else s

/-- `EulersBTCS` at the buffer level.  Wave branch: TypeError before any
store.  Viscous branch: `A = Uo.copy()` (buffer 2) receives the slice
store `A[1:-1] = ...` and then the list comprehension over
`range(iMax)` (the shape tuple) raises. -/
def EulersBTCSMem (Model : String) (shape : List Nat) (Uo : List ℚ)
    (Courant diffX : ℚ) : Store :=
  if shape.length = 2 then [Uo]
  else
    let s : Store := [Uo, Uo]                  -- U = Uo.copy()
    if pyUpper Model = "FO_WAVE" then s
    else if pyUpper Model = "INV_BURGERS" then s
    else if pyUpper Model = "VISC_BURGERS" then
      let s := s ++ [Uo]                       -- A = Uo.copy() (buffer 2)
      -- A[1:-1] = (E[2:] - E[1:-1])/(Uo[2:] - Uo[1:-1])
      s.putB 2 (setMid (s.getB 2) (divL
        (subL (right (fluxE (s.getB 0))) (mid (fluxE (s.getB 0))))
        (subL (right (s.getB 0)) (mid (s.getB 0)))))
    else s

/-- The forward sweep of the modelled Thomas algorithm stores only into
the solver-local lists `H`, `G`; at the buffer level it is pure, and
only back substitution stores into `UU` (buffer 2 of the calling
scheme). -/
def tridBackStepMem (H G : List ℚ) (s : Store) (i : ℤ) : Option PyErr × Store :=
  match pyIdx H i with
  | .error e => (some e, s)
  | .ok hi =>
  match pyIdx G i with
  | .error e => (some e, s)
  | .ok gi =>
  match pyIdx (s.getB 2) (i + 1) with
  | .error e => (some e, s)
  | .ok uip =>
  match pySet (s.getB 2) i (gi - hi * uip) with
  | .error e => (some e, s)
  | .ok uu => (none, s.putB 2 uu)

/-- `CrankNicolson` at the buffer level: `A`, `B`, `C`, `D` are fresh
Python lists (pure values); `UU = Uo.copy()` is buffer 2 and is the only
buffer the modelled solver stores into. -/
def CrankNicolsonMem (Model : String) (iMax : ℤ) (shape : List Nat)
    (Uo : List ℚ) (Courant : ℚ) : Store :=
  if shape.length = 2 then [Uo]
  else
    let s : Store := [Uo, Uo]                  -- U = Uo.copy()
    if pyUpper Model = "FO_WAVE" then
      let cc := 1/4 * Courant
      let A := List.replicate iMax.toNat cc
      let B := List.replicate iMax.toNat (-1 : ℚ)
      let C := List.replicate iMax.toNat (-cc)
      let D := pySliceAssign1 (List.replicate iMax.toNat 0) (cnDRhs Courant Uo)
      let s := s ++ [Uo]                       -- UU = Uo.copy() (buffer 2)
      match loopM (tridForwardStep A B C D) (pyRange 1 (iMax - 1))
          (List.replicate iMax.toNat 0, List.replicate iMax.toNat 0) with
      | .error e => s
      | .ok hg =>
        (loopSt (tridBackStepMem hg.1 hg.2) (pyRange 1 (iMax - 1)).reverse s).2
    else s

/-- `BeamAndWarming` at the buffer level: the wave branch raises, the
inviscid branch faults in the `A = [...]` comprehension
(`range(iMax)` on the shape tuple) before any store. -/
def BeamAndWarmingMem (Model : String) (shape : List Nat) (Uo : List ℚ)
    (Courant : ℚ) : Store :=
  if shape.length = 2 then [Uo] else [Uo, Uo]

/-- One loop iteration of `FirstOrderTVD` at the buffer level: the only
store is `U[i] = ...` (buffer 1). -/
def FirstOrderTVDStepMem (E : List ℚ) (Courant : ℚ) (s : Store) (i : ℤ) :
    Option PyErr × Store :=
  match FirstOrderTVDStep (s.getB 0) E Courant (s.getB 1) i with
  | .error e => (some e, s)
  | .ok u => (none, s.putB 1 u)

/-- `FirstOrderTVD` at the buffer level: buffer 1 is `U = Uo.copy()`. -/
def FirstOrderTVDMem (Model : String) (iMax : ℤ) (shape : List Nat)
    (Uo : List ℚ) (Courant : ℚ) : Store :=
  if shape.length = 2 then [Uo]
  else if pyUpper Model = "FO_WAVE" then [Uo]
  else
    let s : Store := [Uo, Uo]
    (loopSt (FirstOrderTVDStepMem (fluxE Uo) Courant) (pyRange 1 (iMax - 1)) s).2

/-- `SecondOrderTVD` at the buffer level: `U = Uo.copy()` is allocated,
then either the limiter check or the `range(2, iMax-2)` over the shape
tuple raises — before any store. -/
def SecondOrderTVDMem (Model : String) (shape : List Nat) (Uo : List ℚ)
    (Courant : ℚ) (LimiterFunc Limiter : String) (Eps : ℚ)
    (limfuncOptions : List String) : Store :=
  if shape.length = 2 then [Uo]
  else if pyUpper Model = "FO_WAVE" then [Uo]
  else [Uo, Uo]

/-- `FTCS` at the buffer level: buffer 1 is `U = Uo.copy()`, buffer 2 is
`A = Uo.copy()`; the body stores `A[1:-1]` then `U[1:-1]`. -/
def FTCSMem (Model : String) (shape : List Nat) (Uo : List ℚ)
    (Courant diffX : ℚ) : Store :=
  if shape.length = 2 then [Uo]
  else if pyUpper Model = "FO_WAVE" then [Uo]
  else if pyUpper Model = "INV_BURGERS" then [Uo]
  else
    let s : Store := [Uo, Uo, Uo]
    let s := s.putB 2 (setMid (s.getB 2) (faceJacobianRhs (s.getB 0)))
    s.putB 1 (setMid (s.getB 1) (ftcsRhs Courant diffX (s.getB 0) (s.getB 2)))

/-- `FTBCS` at the buffer level, as `FTCS`. -/
def FTBCSMem (Model : String) (shape : List Nat) (Uo : List ℚ)
    (Courant diffX : ℚ) : Store :=
  if shape.length = 2 then [Uo]
  else if pyUpper Model = "FO_WAVE" then [Uo]
  else if pyUpper Model = "INV_BURGERS" then [Uo]
  else
    let s : Store := [Uo, Uo, Uo]
    let s := s.putB 2 (setMid (s.getB 2) (faceJacobianRhs (s.getB 0)))
    s.putB 1 (setMid (s.getB 1) (ftbcsRhs Courant diffX (s.getB 0) (s.getB 2)))

/-- `DuFortFrankel` at the buffer level: buffer 0 is `Uo`, buffer 1 is
`Uo2`, buffer 2 is `U = Uo.copy()`; every branch raises before any
store (`range(1, iMax)` over the shape tuple). -/
def DuFortFrankelMem (Model : String) (shape : List Nat) (Uo Uo2 : List ℚ)
    (Courant diffX : ℚ) : Store :=
  if shape.length = 2 then [Uo, Uo2]
  else if pyUpper Model = "FO_WAVE" then [Uo, Uo2]
  else if pyUpper Model = "INV_BURGERS" then [Uo, Uo2]
  else [Uo, Uo2, Uo]

/-- `BTBCS` at the buffer level: the module-level SyntaxError means no
statement of the body ever executes. -/
def BTBCSMem (Model : String) (shape : List Nat) (Uo : List ℚ)
    (Courant diffX : ℚ) (Accuracy : String) : Store :=
  [Uo]

/-! ### Lengths of the slice and elementwise operations -/

theorem mid_length (l : List ℚ) : (mid l).length = l.length - 2 := by
  simp [mid, Nat.sub_sub]

theorem left_length (l : List ℚ) : (left l).length = l.length - 2 := by
  simp [left, Nat.sub_sub]

theorem right_length (l : List ℚ) : (right l).length = l.length - 2 := by
  simp [right]

theorem addL_length (a b : List ℚ) : (addL a b).length = min a.length b.length := by
  simp [addL]

theorem subL_length (a b : List ℚ) : (subL a b).length = min a.length b.length := by
  simp [subL]

theorem mulL_length (a b : List ℚ) : (mulL a b).length = min a.length b.length := by
  simp [mulL]

theorem divL_length (a b : List ℚ) : (divL a b).length = min a.length b.length := by
  simp [divL]

theorem smulL_length (c : ℚ) (a : List ℚ) : (smulL c a).length = a.length := by
  simp [smulL]

theorem divCL_length (a : List ℚ) (c : ℚ) : (divCL a c).length = a.length := by
  simp [divCL]

theorem fluxE_length (l : List ℚ) : (fluxE l).length = l.length := by
  simp [fluxE]

theorem setMid_length (U v : List ℚ) (hv : v.length = U.length - 2) :
    (setMid U v).length = U.length := by
  unfold setMid
  split
  · rfl
  · rename_i h
    simp only [List.length_append, List.length_take, List.length_drop]
    omega

/-! ### Transport of the operations along uniform (replicate) states -/

theorem mid_replicate (n : ℕ) (k : ℚ) :
    mid (List.replicate n k) = List.replicate (n - 2) k := by
  simp [mid, List.drop_replicate, List.dropLast_replicate, Nat.sub_sub]

theorem left_replicate (n : ℕ) (k : ℚ) :
    left (List.replicate n k) = List.replicate (n - 2) k := by
  simp [left, List.dropLast_replicate, Nat.sub_sub]

theorem right_replicate (n : ℕ) (k : ℚ) :
    right (List.replicate n k) = List.replicate (n - 2) k := by
  simp [right, List.drop_replicate]

theorem addL_replicate (n : ℕ) (a b : ℚ) :
    addL (List.replicate n a) (List.replicate n b) = List.replicate n (a + b) := by
  simp [addL, List.zipWith_replicate]

theorem subL_replicate (n : ℕ) (a b : ℚ) :
    subL (List.replicate n a) (List.replicate n b) = List.replicate n (a - b) := by
  simp [subL, List.zipWith_replicate]

theorem mulL_replicate (n : ℕ) (a b : ℚ) :
    mulL (List.replicate n a) (List.replicate n b) = List.replicate n (a * b) := by
  simp [mulL, List.zipWith_replicate]

theorem smulL_replicate (c : ℚ) (n : ℕ) (a : ℚ) :
    smulL c (List.replicate n a) = List.replicate n (c * a) := by
  simp [smulL]

theorem divCL_replicate (n : ℕ) (a c : ℚ) :
    divCL (List.replicate n a) c = List.replicate n (a / c) := by
  simp [divCL]

theorem fluxE_replicate (n : ℕ) (k : ℚ) :
    fluxE (List.replicate n k) = List.replicate n (k * k / 2) := by
  simp [fluxE]

theorem setMid_replicate (n : ℕ) (k : ℚ) :
    setMid (List.replicate n k) (List.replicate (n - 2) k) = List.replicate n k := by
  unfold setMid
  split
  · rfl
  · rename_i h
    simp only [List.length_replicate] at h ⊢
    rw [List.take_replicate, List.drop_replicate, ← List.replicate_add,
      ← List.replicate_add]
    congr 1
    omega

/-! ### A uniform state passes unchanged through each vectorized
right-hand side: all finite differences vanish. -/

theorem upwindWaveRhs_replicate (conv C k : ℚ) (n : ℕ) :
    upwindWaveRhs conv C (List.replicate n k) = List.replicate (n - 2) k := by
  simp only [upwindWaveRhs, mid_replicate, left_replicate, right_replicate,
    subL_replicate, smulL_replicate]
  congr 1
  ring

theorem upwindBurgRhs_replicate (C k : ℚ) (n : ℕ) :
    upwindBurgRhs C (List.replicate n k) = List.replicate (n - 2) k := by
  simp only [upwindBurgRhs, fluxE_replicate, mid_replicate, left_replicate,
    subL_replicate, smulL_replicate]
  congr 1
  ring

theorem laxWaveRhs_replicate (C k : ℚ) (n : ℕ) :
    laxWaveRhs C (List.replicate n k) = List.replicate (n - 2) k := by
  simp only [laxWaveRhs, mid_replicate, left_replicate, right_replicate,
    addL_replicate, subL_replicate, smulL_replicate]
  congr 1
  ring

theorem laxBurgRhs_replicate (C k : ℚ) (n : ℕ) :
    laxBurgRhs C (List.replicate n k) = List.replicate (n - 2) k := by
  simp only [laxBurgRhs, fluxE_replicate, mid_replicate, left_replicate,
    right_replicate, addL_replicate, subL_replicate, smulL_replicate]
  congr 1
  ring

theorem lwWaveRhs_replicate (C k : ℚ) (n : ℕ) :
    lwWaveRhs C (List.replicate n k) = List.replicate (n - 2) k := by
  simp only [lwWaveRhs, mid_replicate, left_replicate, right_replicate,
    addL_replicate, subL_replicate, smulL_replicate]
  congr 1
  ring

theorem lwBurgRhs_replicate (C k : ℚ) (n : ℕ) :
    lwBurgRhs C (List.replicate n k) = List.replicate (n - 2) k := by
  simp only [lwBurgRhs, fluxE_replicate, mid_replicate, left_replicate,
    right_replicate, addL_replicate, subL_replicate, mulL_replicate,
    smulL_replicate]
  congr 1
  ring

theorem stageRhs_replicate (c den k v : ℚ) (n : ℕ) :
    stageRhs c den (List.replicate n k) (List.replicate n v) =
      List.replicate (n - 2) k := by
  simp only [stageRhs, mid_replicate, left_replicate, right_replicate,
    subL_replicate, smulL_replicate, divCL_replicate]
  congr 1
  ring

theorem rk4FinalRhs_replicate (C k a b c d : ℚ) (n : ℕ) :
    rk4FinalRhs C (List.replicate n k) (List.replicate n a) (List.replicate n b)
      (List.replicate n c) (List.replicate n d) = List.replicate (n - 2) k := by
  simp only [rk4FinalRhs, mid_replicate, left_replicate, right_replicate,
    addL_replicate, subL_replicate, smulL_replicate]
  congr 1
  ring

theorem mrkViscRhs_replicate (diffX k : ℚ) (n : ℕ) :
    mrkViscRhs diffX (List.replicate n k) = List.replicate (n - 2) k := by
  simp only [mrkViscRhs, mid_replicate, left_replicate, right_replicate,
    addL_replicate, subL_replicate, smulL_replicate]
  congr 1
  ring

/-! ### Indexed access on uniform states, and loop invariants -/

theorem pyIdx_replicate {n : ℕ} {k v : ℚ} {i : ℤ}
    (h : pyIdx (List.replicate n k) i = .ok v) : v = k := by
  unfold pyIdx at h
  split_ifs at h with h1 h2
  · rw [Except.ok.injEq] at h
    rw [← h, List.getD_eq_getElem?_getD, List.getElem?_replicate]
    have : i.toNat < n := by
      simp only [List.length_replicate] at h1; omega
    simp [this]
  · rw [Except.ok.injEq] at h
    rw [← h, List.getD_eq_getElem?_getD, List.getElem?_replicate]
    have : (i + (List.replicate n k).length).toNat < n := by
      simp only [List.length_replicate] at h2 ⊢; omega
    simp only [List.length_replicate] at this ⊢
    simp [this]

theorem pySet_replicate_self {n : ℕ} {k : ℚ} {i : ℤ} {l2 : List ℚ}
    (h : pySet (List.replicate n k) i k = .ok l2) : l2 = List.replicate n k := by
  unfold pySet at h
  split_ifs at h <;> rw [Except.ok.injEq] at h <;>
    rw [← h, List.set_replicate_self]

theorem loopM_inv {σ : Type} (P : σ → Prop) (f : σ → ℤ → Except PyErr σ) :
    ∀ (l : List ℤ), (∀ s i s2, i ∈ l → f s i = .ok s2 → P s → P s2) →
      ∀ (s s2 : σ), loopM f l s = .ok s2 → P s → P s2 := by
  intro l
  induction l with
  | nil =>
    intro _ s s2 h hs
    simp only [loopM, Except.ok.injEq] at h
    exact h ▸ hs
  | cons a t ih =>
    intro hf s s2 h hs
    rw [loopM] at h
    cases hfa : f s a with
    | error e => rw [hfa] at h; cases h
    | ok s1 =>
      rw [hfa] at h
      exact ih (fun s i s3 hm => hf s i s3 (List.mem_cons_of_mem a hm)) s1 s2 h
        (hf s a s1 (List.mem_cons_self a t) hfa hs)

theorem pySet_replicate_val {n : ℕ} {k v : ℚ} {i : ℤ} {l2 : List ℚ}
    (hv : v = k) (h : pySet (List.replicate n k) i v = .ok l2) :
    l2 = List.replicate n k := by
  subst hv; exact pySet_replicate_self h

theorem LWMSStep_uniform {n : ℕ} {k C : ℚ} {s s2 : List ℚ × List ℚ} {i : ℤ}
    (hs1 : s.1 = List.replicate n k) (hs2 : s.2 = List.replicate n k)
    (h : LWMSStep (List.replicate n k) C s i = .ok s2) :
    s2.1 = List.replicate n k ∧ s2.2 = List.replicate n k := by
  unfold LWMSStep at h
  rw [hs1, hs2] at h
  split at h
  · cases h
  rename_i up hup
  split at h
  · cases h
  rename_i ui hui
  split at h
  · cases h
  rename_i uhalf huhalf
  have hupk := pyIdx_replicate hup
  have huik := pyIdx_replicate hui
  have huh : uhalf = List.replicate n k :=
    pySet_replicate_val (by rw [hupk, huik]; ring) huhalf
  rw [huh] at h
  split at h
  · cases h
  rename_i hi hhi
  split at h
  · cases h
  rename_i him hhim
  split at h
  · cases h
  rename_i u hu
  have hhik := pyIdx_replicate hhi
  have hhimk := pyIdx_replicate hhim
  have hue : u = List.replicate n k :=
    pySet_replicate_val (by rw [huik, hhik, hhimk]; ring) hu
  rw [Except.ok.injEq] at h
  rw [← h]
  exact ⟨hue, rfl⟩

theorem alphaiPlus12_replicate {n : ℕ} {k : ℚ} {E : List ℚ} {i : ℤ} {v : ℚ}
    (h : alphaiPlus12 (List.replicate n k) E i = .ok v) : v = k := by
  unfold alphaiPlus12 at h
  split at h
  · cases h
  rename_i up hup
  split at h
  · cases h
  rename_i ui hui
  have h1 := pyIdx_replicate hup
  have h2 := pyIdx_replicate hui
  rw [if_pos (by simp [CalcUi, h1, h2])] at h
  rw [Except.ok.injEq] at h
  exact h ▸ h2

theorem alphaiMinus12_replicate {n : ℕ} {k : ℚ} {E : List ℚ} {i : ℤ} {v : ℚ}
    (h : alphaiMinus12 (List.replicate n k) E i = .ok v) : v = k := by
  unfold alphaiMinus12 at h
  split at h
  · cases h
  rename_i ui hui
  split at h
  · cases h
  rename_i uim huim
  have h1 := pyIdx_replicate hui
  have h2 := pyIdx_replicate huim
  rw [if_pos (by simp [CalcUi, h1, h2])] at h
  rw [Except.ok.injEq] at h
  exact h ▸ h1

theorem FirstOrderTVDStep_uniform {n : ℕ} {k C : ℚ} {U u : List ℚ} {i : ℤ}
    (hU : U = List.replicate n k)
    (h : FirstOrderTVDStep (List.replicate n k) (fluxE (List.replicate n k)) C U i
      = .ok u) :
    u = List.replicate n k := by
  subst hU
  rw [fluxE_replicate] at h
  unfold FirstOrderTVDStep at h
  split at h
  · cases h
  rename_i up hup
  split at h
  · cases h
  rename_i ui hui
  split at h
  · cases h
  rename_i uim huim
  split at h
  · cases h
  rename_i aP haP
  split at h
  · cases h
  rename_i aM haM
  split at h
  · cases h
  rename_i eip heip
  split at h
  · cases h
  rename_i eim heim
  have h1 := pyIdx_replicate hup
  have h2 := pyIdx_replicate hui
  have h3 := pyIdx_replicate huim
  have h4 := alphaiPlus12_replicate haP
  have h5 := alphaiMinus12_replicate haM
  have h6 := pyIdx_replicate heip
  have h7 := pyIdx_replicate heim
  exact pySet_replicate_val
    (by rw [h1, h2, h3, h4, h5, h6, h7]; simp only [CalcUi]; ring) h

theorem loopSt_inv {σ : Type} (P : σ → Prop) (f : σ → ℤ → Option PyErr × σ)
    (hf : ∀ s i, P s → P (f s i).2) :
    ∀ (l : List ℤ) (s : σ), P s → P (loopSt f l s).2 := by
  intro l
  induction l with
  | nil => intro s hs; exact hs
  | cons a t ih =>
    intro s hs
    have h2 : P (f s a).2 := hf s a hs
    rw [loopSt]
    cases hmk : f s a with
    | mk e s2 =>
      rw [hmk] at h2
      cases e with
      | some e => exact h2
      | none => exact ih s2 h2

/-! ### Frame preservation: length and the two boundary entries -/

/-- `out` has `orig`'s length and agrees with it at index 0 and at the
last index. -/
def framePres (orig out : List ℚ) : Prop :=
  out.length = orig.length ∧ out.head? = orig.head? ∧ out.getLast? = orig.getLast?

theorem framePres_refl (l : List ℚ) : framePres l l := ⟨rfl, rfl, rfl⟩

theorem framePres_trans {a b c : List ℚ} (h1 : framePres a b) (h2 : framePres b c) :
    framePres a c :=
  ⟨h2.1.trans h1.1, h2.2.1.trans h1.2.1, h2.2.2.trans h1.2.2⟩

theorem setMid_frame (U v : List ℚ) (hv : v.length = U.length - 2) :
    framePres U (setMid U v) := by
  unfold setMid
  split
  · exact framePres_refl U
  · rename_i hlen
    push_neg at hlen
    refine ⟨?_, ?_, ?_⟩
    · simp only [List.length_append, List.length_take, List.length_drop]
      omega
    · rw [List.head?_eq_getElem?, List.head?_eq_getElem?, List.append_assoc,
        List.getElem?_append, if_pos (by simp; omega), List.getElem?_take,
        if_pos (by omega)]
    · rw [List.getLast?_eq_getElem?, List.getLast?_eq_getElem?]
      have hL : (U.take 1 ++ v ++ U.drop (U.length - 1)).length = U.length := by
        simp only [List.length_append, List.length_take, List.length_drop]
        omega
      rw [hL, List.append_assoc, List.getElem?_append_right (by simp; omega),
        List.getElem?_append_right (by simp [hv]; omega), List.getElem?_drop]
      congr 1
      simp only [List.length_take, List.length_drop, hv]
      omega

theorem pyIdx_ok_pos_lt {l : List ℚ} {i : ℤ} {v : ℚ} (h0 : 0 ≤ i)
    (h : pyIdx l i = .ok v) : i < (l.length : ℤ) := by
  unfold pyIdx at h
  split_ifs at h with h1 h2
  · exact h1.2
  · omega

theorem pySet_frame {l : List ℚ} {i : ℤ} {v : ℚ} {l2 : List ℚ} (h1 : 1 ≤ i)
    (h2 : i < (l.length : ℤ) - 1) (h : pySet l i v = .ok l2) :
    framePres l l2 := by
  unfold pySet at h
  rw [if_pos ⟨by omega, by omega⟩, Except.ok.injEq] at h
  subst h
  refine ⟨List.length_set .., ?_, ?_⟩
  · rw [List.head?_eq_getElem?, List.head?_eq_getElem?,
      List.getElem?_set_ne (by omega)]
  · rw [List.getLast?_eq_getElem?, List.getLast?_eq_getElem?, List.length_set,
      List.getElem?_set_ne (by omega)]

theorem pyRange_mem_lower {a b i : ℤ} (h : i ∈ pyRange a b) : a ≤ i := by
  unfold pyRange at h
  obtain ⟨k, _, rfl⟩ := List.mem_map.mp h
  exact le_add_of_nonneg_right (Int.natCast_nonneg k)

/-! ### The interior right-hand sides have interior length -/

theorem upwindWaveRhs_length (conv C : ℚ) (d : List ℚ) :
    (upwindWaveRhs conv C d).length = d.length - 2 := by
  simp [upwindWaveRhs, subL_length, smulL_length, mid_length, left_length,
    right_length]

theorem upwindBurgRhs_length (C : ℚ) (d : List ℚ) :
    (upwindBurgRhs C d).length = d.length - 2 := by
  simp [upwindBurgRhs, subL_length, smulL_length, mid_length, left_length,
    fluxE_length]

theorem laxWaveRhs_length (C : ℚ) (d : List ℚ) :
    (laxWaveRhs C d).length = d.length - 2 := by
  simp [laxWaveRhs, subL_length, addL_length, smulL_length, mid_length,
    left_length, right_length]

theorem laxBurgRhs_length (C : ℚ) (d : List ℚ) :
    (laxBurgRhs C d).length = d.length - 2 := by
  simp [laxBurgRhs, subL_length, addL_length, smulL_length, mid_length,
    left_length, right_length, fluxE_length]

theorem lwWaveRhs_length (C : ℚ) (d : List ℚ) :
    (lwWaveRhs C d).length = d.length - 2 := by
  simp [lwWaveRhs, subL_length, addL_length, smulL_length, mid_length,
    left_length, right_length]

theorem lwBurgRhs_length (C : ℚ) (d : List ℚ) :
    (lwBurgRhs C d).length = d.length - 2 := by
  simp [lwBurgRhs, subL_length, addL_length, smulL_length, mulL_length,
    mid_length, left_length, right_length, fluxE_length]

theorem stageRhs_length (c den : ℚ) (d v : List ℚ) (hv : v.length = d.length) :
    (stageRhs c den d v).length = d.length - 2 := by
  simp [stageRhs, subL_length, smulL_length, divCL_length, mid_length,
    left_length, right_length, hv]

theorem rk4FinalRhs_length (C : ℚ) (d v0 v1 v2 v3 : List ℚ)
    (h0 : v0.length = d.length) (h1 : v1.length = d.length)
    (h2 : v2.length = d.length) (h3 : v3.length = d.length) :
    (rk4FinalRhs C d v0 v1 v2 v3).length = d.length - 2 := by
  simp [rk4FinalRhs, subL_length, addL_length, smulL_length, mid_length,
    left_length, right_length, h0, h1, h2, h3]

theorem mrkViscRhs_length (diffX : ℚ) (u : List ℚ) :
    (mrkViscRhs diffX u).length = u.length - 2 := by
  simp [mrkViscRhs, subL_length, addL_length, smulL_length, mid_length,
    left_length, right_length]

theorem faceJacobianRhs_length (d : List ℚ) :
    (faceJacobianRhs d).length = d.length - 2 := by
  simp [faceJacobianRhs, divL_length, subL_length, mid_length, right_length,
    fluxE_length]

theorem ftcsRhs_length (C diffX : ℚ) (d A : List ℚ) (hA : A.length = d.length) :
    (ftcsRhs C diffX d A).length = d.length - 2 := by
  simp [ftcsRhs, subL_length, addL_length, smulL_length, mulL_length,
    mid_length, left_length, right_length, hA]

theorem ftbcsRhs_length (C diffX : ℚ) (d A : List ℚ) (hA : A.length = d.length) :
    (ftbcsRhs C diffX d A).length = d.length - 2 := by
  simp [ftbcsRhs, subL_length, addL_length, smulL_length, mulL_length,
    mid_length, left_length, right_length, hA]

/-! ### Frame preservation through the loop bodies -/

theorem LWMSStep_frame {d : List ℚ} {C : ℚ} {s s2 : List ℚ × List ℚ} {i : ℤ}
    (hi : 1 ≤ i) (h : LWMSStep d C s i = .ok s2) (hP : framePres d s.1) :
    framePres d s2.1 := by
  unfold LWMSStep at h
  split at h
  · cases h
  rename_i up hup
  split at h
  · cases h
  rename_i ui hui
  split at h
  · cases h
  rename_i uhalf huhalf
  split at h
  · cases h
  rename_i hfc hhi
  split at h
  · cases h
  rename_i him hhim
  split at h
  · cases h
  rename_i u hu
  have hb : i + 1 < (d.length : ℤ) := pyIdx_ok_pos_lt (by omega) hup
  have hf : framePres s.1 u := pySet_frame hi (by rw [hP.1]; omega) hu
  rw [Except.ok.injEq] at h
  rw [← h]
  exact framePres_trans hP hf

theorem FirstOrderTVDStep_frame {d E : List ℚ} {C : ℚ} {U u : List ℚ} {i : ℤ}
    (hi : 1 ≤ i) (h : FirstOrderTVDStep d E C U i = .ok u)
    (hP : framePres d U) : framePres d u := by
  unfold FirstOrderTVDStep at h
  split at h
  · cases h
  rename_i up hup
  split at h
  · cases h
  rename_i ui hui
  split at h
  · cases h
  rename_i uim huim
  split at h
  · cases h
  rename_i aP haP
  split at h
  · cases h
  rename_i aM haM
  split at h
  · cases h
  rename_i eip heip
  split at h
  · cases h
  rename_i eim heim
  have hb : i + 1 < (d.length : ℤ) := pyIdx_ok_pos_lt (by omega) hup
  exact framePres_trans hP (pySet_frame hi (by rw [hP.1]; omega) h)

theorem tridBackStep_frame {H G : List ℚ} {UU0 uu u : List ℚ} {i : ℤ}
    (hi : 1 ≤ i) (h : tridBackStep H G uu i = .ok u) (hP : framePres UU0 uu) :
    framePres UU0 u := by
  unfold tridBackStep at h
  split at h
  · cases h
  rename_i hv hhi
  split at h
  · cases h
  rename_i gv hgi
  split at h
  · cases h
  rename_i uip huip
  have hb : i + 1 < (uu.length : ℤ) := pyIdx_ok_pos_lt (by omega) huip
  exact framePres_trans hP
    (pySet_frame hi (by omega) h)

theorem TridiagonalSolver_frame {iM : ℤ} {A B C D UU u : List ℚ}
    (h : TridiagonalSolver iM A B C D UU = .ok u) : framePres UU u := by
  unfold TridiagonalSolver at h
  split at h
  · cases h
  rename_i s hs
  exact loopM_inv (fun uu => framePres UU uu) (tridBackStep s.1 s.2)
    ((pyRange 1 (iM - 1)).reverse)
    (fun uu i u2 hm hst hP =>
      tridBackStep_frame (pyRange_mem_lower (List.mem_reverse.mp hm)) hst hP)
    _ _ h (framePres_refl UU)

/-! ### Frame preservation, scheme by scheme -/

theorem ExplicitFirstUpwind_frame (M : String) (conv C : ℚ) (Uo V : NDArr)
    (h : ExplicitFirstUpwind M conv Uo C = .ok V) :
    V.shape = Uo.shape ∧ framePres Uo.data V.data := by
  unfold ExplicitFirstUpwind at h
  by_cases h1 : Uo.shape.length = 2
  · rw [if_pos h1] at h; cases h
  rw [if_neg h1] at h
  dsimp only at h
  by_cases h2 : pyUpper M = "FO_WAVE"
  · rw [if_pos h2] at h
    cases h
    exact ⟨rfl, setMid_frame _ _ (upwindWaveRhs_length ..)⟩
  rw [if_neg h2] at h
  by_cases h3 : pyUpper M = "INV_BURGERS"
  · rw [if_pos h3] at h
    cases h
    exact ⟨rfl, setMid_frame _ _ (upwindBurgRhs_length ..)⟩
  rw [if_neg h3] at h
  cases h
  exact ⟨rfl, framePres_refl _⟩

theorem Lax_frame (M : String) (C : ℚ) (Uo V : NDArr)
    (h : Lax M Uo C = .ok V) :
    V.shape = Uo.shape ∧ framePres Uo.data V.data := by
  unfold Lax at h
  by_cases h1 : Uo.shape.length = 2
  · rw [if_pos h1] at h; cases h
  rw [if_neg h1] at h
  dsimp only at h
  by_cases h2 : pyUpper M = "FO_WAVE"
  · rw [if_pos h2] at h
    cases h
    exact ⟨rfl, setMid_frame _ _ (laxWaveRhs_length ..)⟩
  rw [if_neg h2] at h
  by_cases h3 : pyUpper M = "INV_BURGERS"
  · rw [if_pos h3] at h
    cases h
    exact ⟨rfl, setMid_frame _ _ (laxBurgRhs_length ..)⟩
  rw [if_neg h3] at h
  cases h
  exact ⟨rfl, framePres_refl _⟩

theorem MidpointLeapfrog_never_state (M : String) (C : ℚ) (Uo V : NDArr)
    (h : MidpointLeapfrog M Uo C = .ok (some V)) : False := by
  unfold MidpointLeapfrog at h
  by_cases h1 : Uo.shape.length = 2
  · rw [if_pos h1] at h; cases h
  rw [if_neg h1] at h
  by_cases h2 : pyUpper M = "FO_WAVE"
  · rw [if_pos h2] at h; cases h
  rw [if_neg h2] at h
  by_cases h3 : pyUpper M = "INV_BURGERS"
  · rw [if_pos h3] at h; cases h
  rw [if_neg h3] at h
  cases h

theorem LaxWendroff_frame (M : String) (C : ℚ) (Uo V : NDArr)
    (h : LaxWendroff M Uo C = .ok V) :
    V.shape = Uo.shape ∧ framePres Uo.data V.data := by
  unfold LaxWendroff at h
  by_cases h1 : Uo.shape.length = 2
  · rw [if_pos h1] at h; cases h
  rw [if_neg h1] at h
  dsimp only at h
  by_cases h2 : pyUpper M = "FO_WAVE"
  · rw [if_pos h2] at h
    cases h
    exact ⟨rfl, setMid_frame _ _ (lwWaveRhs_length ..)⟩
  rw [if_neg h2] at h
  by_cases h3 : pyUpper M = "INV_BURGERS"
  · rw [if_pos h3] at h
    cases h
    exact ⟨rfl, setMid_frame _ _ (lwBurgRhs_length ..)⟩
  rw [if_neg h3] at h
  cases h
  exact ⟨rfl, framePres_refl _⟩

theorem LaxWendroffMultiStep_frame (M : String) (iM : ℤ) (C : ℚ) (Uo V : NDArr)
    (h : LaxWendroffMultiStep M iM Uo C = .ok V) :
    V.shape = Uo.shape ∧ framePres Uo.data V.data := by
  unfold LaxWendroffMultiStep at h
  by_cases h1 : Uo.shape.length = 2
  · rw [if_pos h1] at h; cases h
  rw [if_neg h1] at h
  by_cases h2 : pyUpper M = "FO_WAVE"
  · rw [if_pos h2] at h
    split at h
    · rename_i s hs
      have hf := loopM_inv (fun s : List ℚ × List ℚ => framePres Uo.data s.1)
        (LWMSStep Uo.data C) (pyRange 1 (iM - 1))
        (fun s i s2 hm hst hP => LWMSStep_frame (pyRange_mem_lower hm) hst hP)
        _ _ hs (framePres_refl _)
      cases h
      exact ⟨rfl, hf⟩
    · cases h
  rw [if_neg h2] at h
  by_cases h3 : pyUpper M = "INV_BURGERS"
  · rw [if_pos h3] at h; cases h
  rw [if_neg h3] at h
  cases h
  exact ⟨rfl, framePres_refl _⟩

theorem MacCormack_frame (M : String) (C dX : ℚ) (Uo V : NDArr)
    (h : MacCormack M Uo C dX = .ok V) :
    V.shape = Uo.shape ∧ framePres Uo.data V.data := by
  unfold MacCormack at h
  by_cases h1 : Uo.shape.length = 2
  · rw [if_pos h1] at h; cases h
  rw [if_neg h1] at h
  by_cases h2 : pyUpper M = "FO_WAVE"
  · rw [if_pos h2] at h; cases h
  rw [if_neg h2] at h
  by_cases h3 : pyUpper M = "INV_BURGERS"
  · rw [if_pos h3] at h; cases h
  rw [if_neg h3] at h
  by_cases h4 : pyUpper M = "VISC_BURGERS"
  · rw [if_pos h4] at h; cases h
  rw [if_neg h4] at h
  cases h
  exact ⟨rfl, framePres_refl _⟩

theorem FourthOrderRungeKutta_frame (M : String) (C : ℚ) (Uo V : NDArr)
    (h : FourthOrderRungeKutta M Uo C = .ok V) :
    V.shape = Uo.shape ∧ framePres Uo.data V.data := by
  unfold FourthOrderRungeKutta at h
  by_cases h1 : Uo.shape.length = 2
  · rw [if_pos h1] at h; cases h
  rw [if_neg h1] at h
  dsimp only at h
  by_cases h2 : pyUpper M = "FO_WAVE"
  · rw [if_pos h2] at h
    cases h
    have l1 : (setMid Uo.data (stageRhs (1/2 * C) 2 Uo.data Uo.data)).length
        = Uo.data.length := setMid_length _ _ (stageRhs_length _ _ _ _ rfl)
    have l2 := setMid_length Uo.data
      (stageRhs (1/2 * C) 2 Uo.data
        (setMid Uo.data (stageRhs (1/2 * C) 2 Uo.data Uo.data)))
      (stageRhs_length _ _ _ _ l1)
    have l3 := setMid_length Uo.data (stageRhs C 2 Uo.data _)
      (stageRhs_length C 2 Uo.data _ l2)
    exact ⟨rfl, setMid_frame _ _ (rk4FinalRhs_length _ _ _ _ _ _ rfl l1 l2 l3)⟩
  rw [if_neg h2] at h
  by_cases h3 : pyUpper M = "INV_BURGERS"
  · rw [if_pos h3] at h
    cases h
    have l1 : (setMid Uo.data (stageRhs (1/2 * C) 2 Uo.data (fluxE Uo.data))).length
        = Uo.data.length :=
      setMid_length _ _ (stageRhs_length _ _ _ _ (fluxE_length _))
    have l2 := setMid_length Uo.data
      (stageRhs (1/2 * C) 2 Uo.data
        (fluxE (setMid Uo.data (stageRhs (1/2 * C) 2 Uo.data (fluxE Uo.data)))))
      (stageRhs_length _ _ _ _ ((fluxE_length _).trans l1))
    have l3 := setMid_length Uo.data (stageRhs C 2 Uo.data _)
      (stageRhs_length C 2 Uo.data _ ((fluxE_length _).trans l2))
    exact ⟨rfl, setMid_frame _ _
      (rk4FinalRhs_length _ _ _ _ _ _ (fluxE_length _)
        ((fluxE_length _).trans l1) ((fluxE_length _).trans l2)
        ((fluxE_length _).trans l3))⟩
  rw [if_neg h3] at h
  cases h
  exact ⟨rfl, framePres_refl _⟩

/-- One Runge-Kutta-style stage keeps the frame (relative to the fixed
`d` read array). -/
theorem setMid_stage_frame {d u : List ℚ} (c den : ℚ) (hu : framePres d u) :
    framePres d (setMid u (stageRhs c den d u)) :=
  framePres_trans hu (setMid_frame _ _
    ((stageRhs_length c den d u hu.1).trans (by rw [hu.1])))

/-- The flux-fed variant of `setMid_stage_frame`. -/
theorem setMid_stageFlux_frame {d u : List ℚ} (c den : ℚ) (hu : framePres d u) :
    framePres d (setMid u (stageRhs c den d (fluxE u))) :=
  framePres_trans hu (setMid_frame _ _
    ((stageRhs_length c den d (fluxE u) ((fluxE_length u).trans hu.1)).trans
      (by rw [hu.1])))

set_option maxHeartbeats 1000000 in
theorem ModifiedRungeKutta_frame (M : String) (C dX : ℚ) (Uo V : NDArr)
    (h : ModifiedRungeKutta M Uo C dX = .ok V) :
    V.shape = Uo.shape ∧ framePres Uo.data V.data := by
  unfold ModifiedRungeKutta at h
  by_cases h1 : Uo.shape.length = 2
  · rw [if_pos h1] at h; cases h
  rw [if_neg h1] at h
  dsimp only at h
  by_cases h2 : pyUpper M = "FO_WAVE"
  · rw [if_pos h2] at h
    cases h
    exact ⟨rfl, setMid_stage_frame C 2 (setMid_stage_frame C 4
      (setMid_stage_frame C 6 (setMid_stage_frame C 8 (framePres_refl _))))⟩
  rw [if_neg h2] at h
  by_cases h3 : pyUpper M = "INV_BURGERS" ∨ pyUpper M = "VISC_BURGERS"
  · rw [if_pos h3] at h
    have hc := setMid_stageFlux_frame (d := Uo.data) C 2
      (setMid_stageFlux_frame C 4 (setMid_stageFlux_frame C 6
        (setMid_stageFlux_frame C 8 (framePres_refl _))))
    by_cases h4 : pyUpper M = "VISC_BURGERS"
    · rw [if_pos h4] at h
      cases h
      exact ⟨rfl, framePres_trans hc (setMid_frame _ _ (mrkViscRhs_length ..))⟩
    · rw [if_neg h4] at h
      cases h
      exact ⟨rfl, hc⟩
  rw [if_neg h3] at h
  cases h
  exact ⟨rfl, framePres_refl _⟩

theorem EulersBTCS_frame (M : String) (C dX : ℚ) (Uo V : NDArr)
    (h : EulersBTCS M Uo C dX = .ok V) :
    V.shape = Uo.shape ∧ framePres Uo.data V.data := by
  unfold EulersBTCS at h
  by_cases h1 : Uo.shape.length = 2
  · rw [if_pos h1] at h; cases h
  rw [if_neg h1] at h
  by_cases h2 : pyUpper M = "FO_WAVE"
  · rw [if_pos h2] at h; cases h
  rw [if_neg h2] at h
  by_cases h3 : pyUpper M = "INV_BURGERS"
  · rw [if_pos h3] at h; cases h
  rw [if_neg h3] at h
  by_cases h4 : pyUpper M = "VISC_BURGERS"
  · rw [if_pos h4] at h; cases h
  rw [if_neg h4] at h
  cases h
  exact ⟨rfl, framePres_refl _⟩

theorem CrankNicolson_frame (M : String) (iM : ℤ) (C : ℚ) (Uo V : NDArr)
    (h : CrankNicolson M iM Uo C = .ok V) :
    V.shape = Uo.shape ∧ framePres Uo.data V.data := by
  unfold CrankNicolson at h
  by_cases h1 : Uo.shape.length = 2
  · rw [if_pos h1] at h; cases h
  rw [if_neg h1] at h
  by_cases h2 : pyUpper M = "FO_WAVE"
  · rw [if_pos h2] at h
    dsimp only at h
    split at h
    · rename_i u hu
      cases h
      exact ⟨rfl, TridiagonalSolver_frame hu⟩
    · cases h
  rw [if_neg h2] at h
  by_cases h3 : pyUpper M = "INV_BURGERS"
  · rw [if_pos h3] at h; cases h
  rw [if_neg h3] at h
  cases h
  exact ⟨rfl, framePres_refl _⟩

theorem BeamAndWarming_frame (M : String) (C : ℚ) (Uo V : NDArr)
    (h : BeamAndWarming M Uo C = .ok V) :
    V.shape = Uo.shape ∧ framePres Uo.data V.data := by
  unfold BeamAndWarming at h
  by_cases h1 : Uo.shape.length = 2
  · rw [if_pos h1] at h; cases h
  rw [if_neg h1] at h
  by_cases h2 : pyUpper M = "FO_WAVE"
  · rw [if_pos h2] at h; cases h
  rw [if_neg h2] at h
  by_cases h3 : pyUpper M = "INV_BURGERS"
  · rw [if_pos h3] at h; cases h
  rw [if_neg h3] at h
  cases h
  exact ⟨rfl, framePres_refl _⟩

theorem FirstOrderTVD_frame (M : String) (iM : ℤ) (C : ℚ) (Uo V : NDArr)
    (h : FirstOrderTVD M iM Uo C = .ok V) :
    V.shape = Uo.shape ∧ framePres Uo.data V.data := by
  unfold FirstOrderTVD at h
  by_cases h1 : Uo.shape.length = 2
  · rw [if_pos h1] at h; cases h
  rw [if_neg h1] at h
  by_cases h2 : pyUpper M = "FO_WAVE"
  · rw [if_pos h2] at h; cases h
  rw [if_neg h2] at h
  dsimp only at h
  split at h
  · rename_i u hu
    have hf := loopM_inv (fun U : List ℚ => framePres Uo.data U)
      (FirstOrderTVDStep Uo.data (fluxE Uo.data) C) (pyRange 1 (iM - 1))
      (fun s i s2 hm hst hP =>
        FirstOrderTVDStep_frame (pyRange_mem_lower hm) hst hP)
      _ _ hu (framePres_refl _)
    cases h
    exact ⟨rfl, hf⟩
  · cases h

theorem SecondOrderTVD_never_state (M : String) (C : ℚ) (Uo V : NDArr)
    (LF L : String) (Eps : ℚ) (opts : List String)
    (h : SecondOrderTVD M Uo C LF L Eps opts = .ok V) : False := by
  unfold SecondOrderTVD at h
  by_cases h1 : Uo.shape.length = 2
  · rw [if_pos h1] at h; cases h
  rw [if_neg h1] at h
  by_cases h2 : pyUpper M = "FO_WAVE"
  · rw [if_pos h2] at h; cases h
  rw [if_neg h2] at h
  by_cases h3 : LF ∈ opts
  · rw [if_pos h3] at h; cases h
  · rw [if_neg h3] at h; cases h

theorem FTCS_frame (M : String) (C dX : ℚ) (Uo V : NDArr)
    (h : FTCS M Uo C dX = .ok V) :
    V.shape = Uo.shape ∧ framePres Uo.data V.data := by
  unfold FTCS at h
  by_cases h1 : Uo.shape.length = 2
  · rw [if_pos h1] at h; cases h
  rw [if_neg h1] at h
  by_cases h2 : pyUpper M = "FO_WAVE"
  · rw [if_pos h2] at h; cases h
  rw [if_neg h2] at h
  by_cases h3 : pyUpper M = "INV_BURGERS"
  · rw [if_pos h3] at h; cases h
  rw [if_neg h3] at h
  dsimp only at h
  cases h
  exact ⟨rfl, setMid_frame _ _ (ftcsRhs_length _ _ _ _
    (setMid_length _ _ (faceJacobianRhs_length _)))⟩

theorem FTBCS_frame (M : String) (C dX : ℚ) (Uo V : NDArr)
    (h : FTBCS M Uo C dX = .ok V) :
    V.shape = Uo.shape ∧ framePres Uo.data V.data := by
  unfold FTBCS at h
  by_cases h1 : Uo.shape.length = 2
  · rw [if_pos h1] at h; cases h
  rw [if_neg h1] at h
  by_cases h2 : pyUpper M = "FO_WAVE"
  · rw [if_pos h2] at h; cases h
  rw [if_neg h2] at h
  by_cases h3 : pyUpper M = "INV_BURGERS"
  · rw [if_pos h3] at h; cases h
  rw [if_neg h3] at h
  dsimp only at h
  cases h
  exact ⟨rfl, setMid_frame _ _ (ftbcsRhs_length _ _ _ _
    (setMid_length _ _ (faceJacobianRhs_length _)))⟩

theorem DuFortFrankel_never_state (M : String) (C dX : ℚ) (Uo Uo2 V : NDArr)
    (h : DuFortFrankel M Uo Uo2 C dX = .ok V) : False := by
  unfold DuFortFrankel at h
  by_cases h1 : Uo.shape.length = 2
  · rw [if_pos h1] at h; cases h
  rw [if_neg h1] at h
  by_cases h2 : pyUpper M = "FO_WAVE"
  · rw [if_pos h2] at h; cases h
  rw [if_neg h2] at h
  by_cases h3 : pyUpper M = "INV_BURGERS"
  · rw [if_pos h3] at h; cases h
  rw [if_neg h3] at h
  cases h

theorem BTBCS_never_state (M : String) (C dX : ℚ) (Uo V : NDArr) (Acc : String)
    (h : BTBCS M Uo C dX Acc = .ok V) : False := by
  unfold BTBCS at h
  cases h

/-! ### The buffer holding the caller's state is never stored to -/

theorem Store.getB_putB_ne (s : Store) (i j : Nat) (v : List ℚ) (h : j ≠ i) :
    (s.putB i v).getB j = s.getB j := by
  simp [Store.putB, Store.getB, List.getD_eq_getElem?_getD,
    List.getElem?_set_ne (Ne.symm h)]

theorem ExplicitFirstUpwindMem_keeps (M : String) (conv : ℚ) (sh : List Nat)
    (Uo : List ℚ) (C : ℚ) :
    (ExplicitFirstUpwindMem M conv sh Uo C).getB 0 = Uo := by
  unfold ExplicitFirstUpwindMem
  split_ifs <;> simp [Store.getB, Store.putB]

theorem LaxMem_keeps (M : String) (sh : List Nat) (Uo : List ℚ) (C : ℚ) :
    (LaxMem M sh Uo C).getB 0 = Uo := by
  unfold LaxMem
  split_ifs <;> simp [Store.getB, Store.putB]

theorem MidpointLeapfrogMem_keeps (M : String) (sh : List Nat) (Uo : List ℚ)
    (C : ℚ) : (MidpointLeapfrogMem M sh Uo C).getB 0 = Uo := by
  unfold MidpointLeapfrogMem
  split_ifs <;> simp [Store.getB]

theorem LaxWendroffMem_keeps (M : String) (sh : List Nat) (Uo : List ℚ)
    (C : ℚ) : (LaxWendroffMem M sh Uo C).getB 0 = Uo := by
  unfold LaxWendroffMem
  split_ifs <;> simp [Store.getB, Store.putB]

theorem LWMSStepMem_keeps (C : ℚ) (s : Store) (i : ℤ) :
    ((LWMSStepMem C s i).2).getB 0 = s.getB 0 := by
  unfold LWMSStepMem
  split
  · rfl
  split
  · rfl
  split
  · rfl
  dsimp only
  split
  · exact Store.getB_putB_ne _ _ _ _ (by omega)
  split
  · exact Store.getB_putB_ne _ _ _ _ (by omega)
  split
  · exact Store.getB_putB_ne _ _ _ _ (by omega)
  · rw [Store.getB_putB_ne _ _ _ _ (by omega),
      Store.getB_putB_ne _ _ _ _ (by omega)]

theorem LaxWendroffMultiStepMem_keeps (M : String) (iM : ℤ) (sh : List Nat)
    (Uo : List ℚ) (C : ℚ) :
    (LaxWendroffMultiStepMem M iM sh Uo C).getB 0 = Uo := by
  unfold LaxWendroffMultiStepMem
  split_ifs
  · simp [Store.getB]
  · exact loopSt_inv (fun s : Store => s.getB 0 = Uo) (LWMSStepMem C)
      (fun s i hP => (LWMSStepMem_keeps C s i).trans hP)
      (pyRange 1 (iM - 1)) [Uo, Uo, Uo] (by simp [Store.getB])
  · simp [Store.getB]

theorem MacCormackMem_keeps (M : String) (sh : List Nat) (Uo : List ℚ)
    (C dX : ℚ) : (MacCormackMem M sh Uo C dX).getB 0 = Uo := by
  unfold MacCormackMem
  split_ifs <;> simp [Store.getB]

theorem FourthOrderRungeKuttaMem_keeps (M : String) (sh : List Nat)
    (Uo : List ℚ) (C : ℚ) :
    (FourthOrderRungeKuttaMem M sh Uo C).getB 0 = Uo := by
  unfold FourthOrderRungeKuttaMem
  split_ifs <;> simp [Store.getB, Store.putB]

theorem ModifiedRungeKuttaMem_keeps (M : String) (sh : List Nat)
    (Uo : List ℚ) (C dX : ℚ) :
    (ModifiedRungeKuttaMem M sh Uo C dX).getB 0 = Uo := by
  unfold ModifiedRungeKuttaMem
  split_ifs <;> simp [Store.getB, Store.putB]

theorem EulersBTCSMem_keeps (M : String) (sh : List Nat) (Uo : List ℚ)
    (C dX : ℚ) : (EulersBTCSMem M sh Uo C dX).getB 0 = Uo := by
  unfold EulersBTCSMem
  split_ifs <;> simp [Store.getB, Store.putB]

theorem tridBackStepMem_keeps (H G : List ℚ) (s : Store) (i : ℤ) :
    ((tridBackStepMem H G s i).2).getB 0 = s.getB 0 := by
  unfold tridBackStepMem
  repeat' split
  all_goals simp [Store.getB_putB_ne]

theorem CrankNicolsonMem_keeps (M : String) (iM : ℤ) (sh : List Nat)
    (Uo : List ℚ) (C : ℚ) :
    (CrankNicolsonMem M iM sh Uo C).getB 0 = Uo := by
  unfold CrankNicolsonMem
  split_ifs
  · simp [Store.getB]
  · dsimp only
    split
    · simp [Store.getB]
    · exact loopSt_inv (fun s : Store => s.getB 0 = Uo) _
        (fun s i hP => (tridBackStepMem_keeps _ _ s i).trans hP)
        _ _ (by simp [Store.getB])
  · simp [Store.getB]

theorem BeamAndWarmingMem_keeps (M : String) (sh : List Nat) (Uo : List ℚ)
    (C : ℚ) : (BeamAndWarmingMem M sh Uo C).getB 0 = Uo := by
  unfold BeamAndWarmingMem
  split_ifs <;> simp [Store.getB]

theorem FirstOrderTVDStepMem_keeps (E : List ℚ) (C : ℚ) (s : Store) (i : ℤ) :
    ((FirstOrderTVDStepMem E C s i).2).getB 0 = s.getB 0 := by
  unfold FirstOrderTVDStepMem
  split
  · simp
  · simp [Store.getB_putB_ne]

theorem FirstOrderTVDMem_keeps (M : String) (iM : ℤ) (sh : List Nat)
    (Uo : List ℚ) (C : ℚ) : (FirstOrderTVDMem M iM sh Uo C).getB 0 = Uo := by
  unfold FirstOrderTVDMem
  split_ifs
  · simp [Store.getB]
  · simp [Store.getB]
  · exact loopSt_inv (fun s : Store => s.getB 0 = Uo) _
      (fun s i hP => (FirstOrderTVDStepMem_keeps _ _ s i).trans hP)
      _ _ (by simp [Store.getB])

theorem SecondOrderTVDMem_keeps (M : String) (sh : List Nat) (Uo : List ℚ)
    (C : ℚ) (LF L : String) (Eps : ℚ) (opts : List String) :
    (SecondOrderTVDMem M sh Uo C LF L Eps opts).getB 0 = Uo := by
  unfold SecondOrderTVDMem
  split_ifs <;> simp [Store.getB]

theorem FTCSMem_keeps (M : String) (sh : List Nat) (Uo : List ℚ) (C dX : ℚ) :
    (FTCSMem M sh Uo C dX).getB 0 = Uo := by
  unfold FTCSMem
  split_ifs <;> simp [Store.getB, Store.putB]

theorem FTBCSMem_keeps (M : String) (sh : List Nat) (Uo : List ℚ) (C dX : ℚ) :
    (FTBCSMem M sh Uo C dX).getB 0 = Uo := by
  unfold FTBCSMem
  split_ifs <;> simp [Store.getB, Store.putB]

theorem DuFortFrankelMem_keeps (M : String) (sh : List Nat) (Uo Uo2 : List ℚ)
    (C dX : ℚ) :
    (DuFortFrankelMem M sh Uo Uo2 C dX).getB 0 = Uo ∧
      (DuFortFrankelMem M sh Uo Uo2 C dX).getB 1 = Uo2 := by
  unfold DuFortFrankelMem
  split_ifs <;> simp [Store.getB]

theorem BTBCSMem_keeps (M : String) (sh : List Nat) (Uo : List ℚ) (C dX : ℚ)
    (Acc : String) : (BTBCSMem M sh Uo C dX Acc).getB 0 = Uo := by
  simp [BTBCSMem, Store.getB]

/-! ### Crash behaviour on implemented models (for the uniform-state
claim's amended form) -/

theorem MacCormack_crash_waveinv (M : String) (Uo : NDArr) (C dX : ℚ)
    (hd : Uo.shape.length ≠ 2)
    (hM : pyUpper M = "FO_WAVE" ∨ pyUpper M = "INV_BURGERS") :
    MacCormack M Uo C dX = .error .typeError := by
  unfold MacCormack
  rcases hM with h | h
  · rw [if_neg hd, h, if_pos rfl]
  · rw [if_neg hd, h, if_neg (by decide), if_pos rfl]

theorem MacCormack_crash_visc (M : String) (Uo : NDArr) (C dX : ℚ)
    (hd : Uo.shape.length ≠ 2) (hM : pyUpper M = "VISC_BURGERS") :
    MacCormack M Uo C dX = .error .nameError := by
  unfold MacCormack
  rw [if_neg hd, hM, if_neg (by decide), if_neg (by decide), if_pos rfl]

theorem EulersBTCS_crash (M : String) (Uo : NDArr) (C dX : ℚ)
    (hd : Uo.shape.length ≠ 2)
    (hM : pyUpper M = "FO_WAVE" ∨ pyUpper M = "VISC_BURGERS") :
    EulersBTCS M Uo C dX = .error .typeError := by
  unfold EulersBTCS
  rcases hM with h | h
  · rw [if_neg hd, h, if_pos rfl]
  · rw [if_neg hd, h, if_neg (by decide), if_neg (by decide), if_pos rfl]

theorem BeamAndWarming_crash (M : String) (Uo : NDArr) (C : ℚ)
    (hd : Uo.shape.length ≠ 2) (hM : pyUpper M = "INV_BURGERS") :
    BeamAndWarming M Uo C = .error .typeError := by
  unfold BeamAndWarming
  rw [if_neg hd, hM, if_neg (by decide), if_pos rfl]

theorem DuFortFrankel_crash (M : String) (Uo Uo2 : NDArr) (C dX : ℚ)
    (hd : Uo.shape.length ≠ 2) (hM : pyUpper M = "VISC_BURGERS") :
    DuFortFrankel M Uo Uo2 C dX = .error .typeError := by
  unfold DuFortFrankel
  rw [if_neg hd, hM, if_neg (by decide), if_neg (by decide)]

/-! ### Uniform input states pass through unchanged (where a state is
returned at all) -/

theorem ExplicitFirstUpwind_uniform (M : String) (conv C k : ℚ) (n : ℕ)
    (hM : pyUpper M = "FO_WAVE" ∨ pyUpper M = "INV_BURGERS") :
    ExplicitFirstUpwind M conv ⟨[n], List.replicate n k⟩ C =
      .ok ⟨[n], List.replicate n k⟩ := by
  rcases hM with h | h <;>
    simp [ExplicitFirstUpwind, h, upwindWaveRhs_replicate, upwindBurgRhs_replicate,
      setMid_replicate]

theorem Lax_uniform (M : String) (C k : ℚ) (n : ℕ)
    (hM : pyUpper M = "FO_WAVE" ∨ pyUpper M = "INV_BURGERS") :
    Lax M ⟨[n], List.replicate n k⟩ C = .ok ⟨[n], List.replicate n k⟩ := by
  rcases hM with h | h <;>
    simp [Lax, h, laxWaveRhs_replicate, laxBurgRhs_replicate, setMid_replicate]

theorem LaxWendroff_uniform (M : String) (C k : ℚ) (n : ℕ)
    (hM : pyUpper M = "FO_WAVE" ∨ pyUpper M = "INV_BURGERS") :
    LaxWendroff M ⟨[n], List.replicate n k⟩ C = .ok ⟨[n], List.replicate n k⟩ := by
  rcases hM with h | h <;>
    simp [LaxWendroff, h, lwWaveRhs_replicate, lwBurgRhs_replicate, setMid_replicate]

theorem FourthOrderRungeKutta_uniform (M : String) (C k : ℚ) (n : ℕ)
    (hM : pyUpper M = "FO_WAVE" ∨ pyUpper M = "INV_BURGERS") :
    FourthOrderRungeKutta M ⟨[n], List.replicate n k⟩ C =
      .ok ⟨[n], List.replicate n k⟩ := by
  rcases hM with h | h <;>
    simp [FourthOrderRungeKutta, h, stageRhs_replicate, rk4FinalRhs_replicate,
      fluxE_replicate, setMid_replicate]

theorem ModifiedRungeKutta_uniform (M : String) (C diffX k : ℚ) (n : ℕ)
    (hM : pyUpper M = "FO_WAVE" ∨ pyUpper M = "INV_BURGERS" ∨
      pyUpper M = "VISC_BURGERS") :
    ModifiedRungeKutta M ⟨[n], List.replicate n k⟩ C diffX =
      .ok ⟨[n], List.replicate n k⟩ := by
  rcases hM with h | h | h <;>
    simp [ModifiedRungeKutta, h, stageRhs_replicate, mrkViscRhs_replicate,
      fluxE_replicate, setMid_replicate]

theorem LaxWendroffMultiStep_uniform (M : String) (iM : ℤ) (C k : ℚ) (n : ℕ)
    (hM : pyUpper M = "FO_WAVE") (V : NDArr)
    (h : LaxWendroffMultiStep M iM ⟨[n], List.replicate n k⟩ C = .ok V) :
    V = ⟨[n], List.replicate n k⟩ := by
  unfold LaxWendroffMultiStep at h
  rw [if_neg (by simp), hM, if_pos rfl] at h
  split at h
  · rename_i s hs
    have hinv := loopM_inv
      (fun s : List ℚ × List ℚ =>
        s.1 = List.replicate n k ∧ s.2 = List.replicate n k)
      (LWMSStep (List.replicate n k) C) (pyRange 1 (iM - 1))
      (fun s i s2 _ hst hP => LWMSStep_uniform hP.1 hP.2 hst)
      _ _ hs ⟨rfl, rfl⟩
    rw [Except.ok.injEq] at h
    rw [← h, hinv.1]
  · cases h

theorem FirstOrderTVD_uniform (M : String) (iM : ℤ) (C k : ℚ) (n : ℕ)
    (hM : pyUpper M = "INV_BURGERS") (V : NDArr)
    (h : FirstOrderTVD M iM ⟨[n], List.replicate n k⟩ C = .ok V) :
    V = ⟨[n], List.replicate n k⟩ := by
  unfold FirstOrderTVD at h
  rw [if_neg (by simp), hM, if_neg (by decide)] at h
  dsimp only at h
  split at h
  · rename_i u hu
    have hinv := loopM_inv (fun U : List ℚ => U = List.replicate n k)
      (FirstOrderTVDStep (List.replicate n k) (fluxE (List.replicate n k)) C)
      (pyRange 1 (iM - 1))
      (fun s i s2 _ hst hP => FirstOrderTVDStep_uniform hP hst)
      _ _ hu rfl
    rw [Except.ok.injEq] at h
    rw [← h, hinv]
  · cases h



/-! ## The claims -/

/-- C3: on the 5-node wave-model state `[0, 1, 2, 1, 0]` with Courant
number `0.5` and constant speed `a = cfg.conv = 1`, `ExplicitFirstUpwind`
takes the `positive_a` branch (the `negative_a` weight `1 - sign(1)`
vanishes, so the stencil reaches only to the left) and returns exactly
`[0, 0.5, 1.5, 1.5, 0]`: `U[1] = 1 - 0.5*(1-0)`, `U[2] = 2 - 0.5*(2-1)`,
`U[3] = 1 - 0.5*(1-2)`, boundaries unchanged. -/
theorem spec_C3 :
    ExplicitFirstUpwind "FO_WAVE" 1 ⟨[5], [0, 1, 2, 1, 0]⟩ (1/2) =
      .ok ⟨[5], [0, 1/2, 3/2, 3/2, 0]⟩ := by
  norm_num [ExplicitFirstUpwind, (by decide : pyUpper "FO_WAVE" = "FO_WAVE"),
    setMid, upwindWaveRhs, mid, left, right, subL, smulL, sgn, List.dropLast]

/-- C6: the claim is right and the code is wrong.  `FTCS` (and likewise
`DuFortFrankel`) invoked with the inviscid-Burgers model rejects the
pairing with the message "This formulation is not available for WAVE
equation in this version." (source lines 1216-1218 and 1359-1361) — a
message that names neither the rejecting scheme nor the rejected Burgers
model, and misnames the model as WAVE. -/
theorem spec_C6 :
    FTCS "INV_BURGERS" ⟨[3], [0, 1, 0]⟩ 1 1 = .error (.exception waveNAMsg) ∧
    DuFortFrankel "INV_BURGERS" ⟨[3], [0, 1, 0]⟩ ⟨[3], [0, 1, 0]⟩ 1 1 =
      .error (.exception waveNAMsg) ∧
    waveNAMsg =
      "This formulation is not available for WAVE equation in this version." := by
  refine ⟨?_, ?_, rfl⟩
  · unfold FTCS
    rw [if_neg (by decide), (by decide : pyUpper "INV_BURGERS" = "INV_BURGERS"),
      if_neg (by decide), if_pos rfl]
  · unfold DuFortFrankel
    rw [if_neg (by decide), (by decide : pyUpper "INV_BURGERS" = "INV_BURGERS"),
      if_neg (by decide), if_pos rfl]

/-- C8: the claim is right and the code is wrong.  `BTBCS`'s body is not
valid Python (`th={"1"=1.0, ...}` and the unbalanced bracket on line
1450 are SyntaxErrors), so the module cannot even be imported: no call
selects a weight table, raises InvalidOption, or reaches
`TridiagonalSolver`.  The embedding records that import-time failure. -/
theorem spec_C8 :
    BTBCS "VISC_BURGERS" ⟨[5], [0, 1, 2, 1, 0]⟩ 1 (1/2) "first-order" =
      .error .syntaxError := rfl

/-- C1 (counterexample): the steady-state invariant does not hold for
every scheme.  `EulersBTCS` — an implicit scheme named by the claim — on
the uniform 1-D state `[1, 1, 1]` with its implemented wave model raises
TypeError (the list comprehension runs `range(iMax)` with `iMax = shapeU`
the shape tuple, source line 744) and in particular does not return the
uniform state. -/
theorem spec_C1_counterexample :
    EulersBTCS "FO_WAVE" ⟨[3], [1, 1, 1]⟩ (1/2) 0 = .error .typeError ∧
      EulersBTCS "FO_WAVE" ⟨[3], [1, 1, 1]⟩ (1/2) 0 ≠ .ok ⟨[3], [1, 1, 1]⟩ := by
  have he : EulersBTCS "FO_WAVE" ⟨[3], [1, 1, 1]⟩ (1/2) 0 = .error .typeError := by
    unfold EulersBTCS
    rw [if_neg (by decide), (by decide : pyUpper "FO_WAVE" = "FO_WAVE"),
      if_pos rfl]
  refine ⟨he, ?_⟩
  rw [he]
  intro hc
  cases hc

/-- C1 (amended): the uniform steady state `k` is preserved exactly by
the schemes that actually complete a step — `ExplicitFirstUpwind`, `Lax`,
`LaxWendroff`, `LaxWendroffMultiStep`, `FourthOrderRungeKutta`,
`ModifiedRungeKutta` and `FirstOrderTVD`, each on the models it
implements (for the two loop-based schemes: whenever the call returns a
state at all).  It fails for the rest: `MacCormack`, `EulersBTCS`,
`BeamAndWarming` and `DuFortFrankel` raise TypeError or NameError on
every call with an implemented model, so no state (uniform or otherwise)
is ever produced. -/
theorem spec_C1_amended :
    (∀ M conv C k (n : ℕ),
      (pyUpper M = "FO_WAVE" ∨ pyUpper M = "INV_BURGERS") →
      ExplicitFirstUpwind M conv ⟨[n], List.replicate n k⟩ C =
        .ok ⟨[n], List.replicate n k⟩) ∧
    (∀ M C k (n : ℕ), (pyUpper M = "FO_WAVE" ∨ pyUpper M = "INV_BURGERS") →
      Lax M ⟨[n], List.replicate n k⟩ C = .ok ⟨[n], List.replicate n k⟩) ∧
    (∀ M C k (n : ℕ), (pyUpper M = "FO_WAVE" ∨ pyUpper M = "INV_BURGERS") →
      LaxWendroff M ⟨[n], List.replicate n k⟩ C =
        .ok ⟨[n], List.replicate n k⟩) ∧
    (∀ M iM C k (n : ℕ) V, pyUpper M = "FO_WAVE" →
      LaxWendroffMultiStep M iM ⟨[n], List.replicate n k⟩ C = .ok V →
      V = ⟨[n], List.replicate n k⟩) ∧
    (∀ M C k (n : ℕ), (pyUpper M = "FO_WAVE" ∨ pyUpper M = "INV_BURGERS") →
      FourthOrderRungeKutta M ⟨[n], List.replicate n k⟩ C =
        .ok ⟨[n], List.replicate n k⟩) ∧
    (∀ M C dX k (n : ℕ),
      (pyUpper M = "FO_WAVE" ∨ pyUpper M = "INV_BURGERS" ∨
        pyUpper M = "VISC_BURGERS") →
      ModifiedRungeKutta M ⟨[n], List.replicate n k⟩ C dX =
        .ok ⟨[n], List.replicate n k⟩) ∧
    (∀ M iM C k (n : ℕ) V, pyUpper M = "INV_BURGERS" →
      FirstOrderTVD M iM ⟨[n], List.replicate n k⟩ C = .ok V →
      V = ⟨[n], List.replicate n k⟩) ∧
    (∀ M C dX k (n : ℕ),
      (pyUpper M = "FO_WAVE" ∨ pyUpper M = "INV_BURGERS") →
      MacCormack M ⟨[n], List.replicate n k⟩ C dX = .error .typeError) ∧
    (∀ M C dX k (n : ℕ), pyUpper M = "VISC_BURGERS" →
      MacCormack M ⟨[n], List.replicate n k⟩ C dX = .error .nameError) ∧
    (∀ M C dX k (n : ℕ),
      (pyUpper M = "FO_WAVE" ∨ pyUpper M = "VISC_BURGERS") →
      EulersBTCS M ⟨[n], List.replicate n k⟩ C dX = .error .typeError) ∧
    (∀ M C k (n : ℕ), pyUpper M = "INV_BURGERS" →
      BeamAndWarming M ⟨[n], List.replicate n k⟩ C = .error .typeError) ∧
    (∀ M C dX k (n : ℕ), pyUpper M = "VISC_BURGERS" →
      DuFortFrankel M ⟨[n], List.replicate n k⟩ ⟨[n], List.replicate n k⟩ C dX =
        .error .typeError) := by
  refine ⟨?_, ?_, ?_, ?_, ?_, ?_, ?_, ?_, ?_, ?_, ?_, ?_⟩
  · intro M conv C k n hM
    exact ExplicitFirstUpwind_uniform M conv C k n hM
  · intro M C k n hM
    exact Lax_uniform M C k n hM
  · intro M C k n hM
    exact LaxWendroff_uniform M C k n hM
  · intro M iM C k n V hM h
    exact LaxWendroffMultiStep_uniform M iM C k n hM V h
  · intro M C k n hM
    exact FourthOrderRungeKutta_uniform M C k n hM
  · intro M C dX k n hM
    exact ModifiedRungeKutta_uniform M C dX k n hM
  · intro M iM C k n V hM h
    exact FirstOrderTVD_uniform M iM C k n hM V h
  · intro M C dX k n hM
    exact MacCormack_crash_waveinv M _ C dX (by simp) hM
  · intro M C dX k n hM
    exact MacCormack_crash_visc M _ C dX (by simp) hM
  · intro M C dX k n hM
    exact EulersBTCS_crash M _ C dX (by simp) hM
  · intro M C k n hM
    exact BeamAndWarming_crash M _ C (by simp) hM
  · intro M C dX k n hM
    exact DuFortFrankel_crash M _ _ C dX (by simp) hM

/-- C1 (witness): the amended statement applied at concrete inputs: the
uniform 4-node state `[3, 3, 3, 3]` passes unchanged through
`ExplicitFirstUpwind` (wave model, `a = 1`, `C = 1/2`) and through
`ModifiedRungeKutta` (viscous-Burgers model), while `MacCormack` on it
raises TypeError. -/
theorem spec_C1_amended_witness :
    ExplicitFirstUpwind "FO_WAVE" 1 ⟨[4], List.replicate 4 (3 : ℚ)⟩ (1/2) =
      .ok ⟨[4], List.replicate 4 (3 : ℚ)⟩ ∧
    ModifiedRungeKutta "VISC_BURGERS" ⟨[4], List.replicate 4 (3 : ℚ)⟩ (1/2) (1/3) =
      .ok ⟨[4], List.replicate 4 (3 : ℚ)⟩ ∧
    MacCormack "FO_WAVE" ⟨[4], List.replicate 4 (3 : ℚ)⟩ (1/2) 0 =
      .error .typeError :=
  ⟨spec_C1_amended.1 "FO_WAVE" 1 (1/2) 3 4 (Or.inl (by decide)),
   spec_C1_amended.2.2.2.2.2.1 "VISC_BURGERS" (1/2) (1/3) 3 4
     (Or.inr (Or.inr (by decide))),
   spec_C1_amended.2.2.2.2.2.2.2.1 "FO_WAVE" (1/2) 0 3 4 (Or.inl (by decide))⟩

/-- C4 (counterexample): `MidpointLeapfrog` does not fail on every call:
for any model other than the two it tests for — e.g. the viscous-Burgers
model — both `raise` branches are skipped and, the `return U` being
commented out, the call returns Python `None` without any error. -/
theorem spec_C4_counterexample :
    MidpointLeapfrog "VISC_BURGERS" ⟨[3], [0, 1, 0]⟩ 1 = .ok none := by
  unfold MidpointLeapfrog
  rw [if_neg (by decide), (by decide : pyUpper "VISC_BURGERS" = "VISC_BURGERS"),
    if_neg (by decide), if_neg (by decide)]

/-- C4 (amended): on a 1-D state, `MidpointLeapfrog` raises the
"formulation is not available" message for the two models it recognizes
(WAVE wording for `FO_WAVE`, BURGERS wording for `INV_BURGERS`), and for
every other model string it silently returns Python `None` — no error,
but also no state. -/
theorem spec_C4 (M : String) (Uo : NDArr) (C : ℚ) (hd : Uo.shape.length ≠ 2) :
    (pyUpper M = "FO_WAVE" →
      MidpointLeapfrog M Uo C = .error (.exception waveNAMsg)) ∧
    (pyUpper M = "INV_BURGERS" →
      MidpointLeapfrog M Uo C = .error (.exception burgersNAMsg)) ∧
    (pyUpper M ≠ "FO_WAVE" → pyUpper M ≠ "INV_BURGERS" →
      MidpointLeapfrog M Uo C = .ok none) := by
  refine ⟨fun h1 => ?_, fun h2 => ?_, fun h1 h2 => ?_⟩
  · unfold MidpointLeapfrog
    rw [if_neg hd, h1, if_pos rfl]
  · unfold MidpointLeapfrog
    rw [if_neg hd, h2, if_neg (by decide), if_pos rfl]
  · unfold MidpointLeapfrog
    rw [if_neg hd, if_neg h1, if_neg h2]

/-- C4 (witness): the amended statement applied at concrete inputs. -/
theorem spec_C4_witness :
    MidpointLeapfrog "FO_WAVE" ⟨[3], [0, 1, 0]⟩ 1 =
      .error (.exception waveNAMsg) ∧
    MidpointLeapfrog "inv_burgers" ⟨[3], [0, 1, 0]⟩ 1 =
      .error (.exception burgersNAMsg) ∧
    MidpointLeapfrog "SOME_OTHER_MODEL" ⟨[3], [0, 1, 0]⟩ 1 = .ok none :=
  ⟨(spec_C4 "FO_WAVE" ⟨[3], [0, 1, 0]⟩ 1 (by decide)).1 (by decide),
   (spec_C4 "inv_burgers" ⟨[3], [0, 1, 0]⟩ 1 (by decide)).2.1 (by decide),
   (spec_C4 "SOME_OTHER_MODEL" ⟨[3], [0, 1, 0]⟩ 1 (by decide)).2.2
     (by decide) (by decide)⟩

/-- C5 (counterexample): a three-dimensional input is not rejected: the
guard is `len(shapeU) == 2`, so `ExplicitFirstUpwind` on a state of
shape `(3, 1, 1)` proceeds with the update (elementwise over axis 0)
and returns a state instead of failing with the dimension error. -/
theorem spec_C5_counterexample :
    ExplicitFirstUpwind "FO_WAVE" 1 ⟨[3, 1, 1], [0, 1, 0]⟩ (1/2) =
      .ok ⟨[3, 1, 1], [0, 1/2, 0]⟩ := by
  norm_num [ExplicitFirstUpwind, (by decide : pyUpper "FO_WAVE" = "FO_WAVE"),
    setMid, upwindWaveRhs, mid, left, right, subL, smulL, sgn, List.dropLast]

/-- C5 (amended): every explicit scheme rejects exactly the
two-dimensional inputs — `if len(shapeU) == 2` — with the 1-D-only
message, before computing any update; inputs of any other
dimensionality (including 3-D and higher) pass this check. -/
theorem spec_C5 (Uo Uo2 : NDArr) (hd : Uo.shape.length = 2) :
    ∀ (M : String) (conv C dX : ℚ) (iM : ℤ),
    ExplicitFirstUpwind M conv Uo C = .error (.exception dim1DMsg) ∧
    Lax M Uo C = .error (.exception dim1DMsg) ∧
    MidpointLeapfrog M Uo C = .error (.exception dim1DMsg) ∧
    LaxWendroff M Uo C = .error (.exception dim1DMsg) ∧
    LaxWendroffMultiStep M iM Uo C = .error (.exception dim1DMsg) ∧
    MacCormack M Uo C dX = .error (.exception dim1DMsg) ∧
    FourthOrderRungeKutta M Uo C = .error (.exception dim1DMsg) ∧
    ModifiedRungeKutta M Uo C dX = .error (.exception dim1DMsg) ∧
    FTCS M Uo C dX = .error (.exception dim1DMsg) ∧
    FTBCS M Uo C dX = .error (.exception dim1DMsg) ∧
    DuFortFrankel M Uo Uo2 C dX = .error (.exception dim1DMsg) := by
  intro M conv C dX iM
  refine ⟨?_, ?_, ?_, ?_, ?_, ?_, ?_, ?_, ?_, ?_, ?_⟩ <;>
    simp [ExplicitFirstUpwind, Lax, MidpointLeapfrog, LaxWendroff,
      LaxWendroffMultiStep, MacCormack, FourthOrderRungeKutta,
      ModifiedRungeKutta, FTCS, FTBCS, DuFortFrankel, hd]

/-- C5 (witness): the amended statement applied at a concrete 2-D input
(shape `(2, 2)`). -/
theorem spec_C5_witness :
    Lax "FO_WAVE" ⟨[2, 2], [0, 1, 2, 3]⟩ (1/2) =
      .error (.exception dim1DMsg) :=
  (spec_C5 ⟨[2, 2], [0, 1, 2, 3]⟩ ⟨[2, 2], [0, 1, 2, 3]⟩ (by decide)
    "FO_WAVE" 1 (1/2) 0 4).2.1

/-- C10 (counterexample): an unrecognized model string does not always
fall through silently with an unchanged copy.  `FTCS` only tests for
`FO_WAVE` and `INV_BURGERS`; the arbitrary unknown name `NEW_MODEL`
falls into the viscous-Burgers computation, and the returned state
`[0, -1, 0]` differs from the input `[0, 1, 0]`. -/
theorem spec_C10_counterexample :
    FTCS "NEW_MODEL" ⟨[3], [0, 1, 0]⟩ 1 1 = .ok ⟨[3], [0, -1, 0]⟩ ∧
      (⟨[3], [0, -1, 0]⟩ : NDArr) ≠ ⟨[3], [0, 1, 0]⟩ := by
  constructor
  · unfold FTCS
    rw [if_neg (by decide), (by decide : pyUpper "NEW_MODEL" = "NEW_MODEL"),
      if_neg (by decide), if_neg (by decide)]
    norm_num [setMid, faceJacobianRhs, ftcsRhs, mid, left, right, subL, addL,
      mulL, divL, smulL, fluxE, List.dropLast]
  · decide

/-- C10 (amended): for `ExplicitFirstUpwind`, `Lax`, `LaxWendroff` and
`FourthOrderRungeKutta` — the schemes the claim names — a model string
matching neither FO_WAVE nor INV_BURGERS (case-insensitively) raises no
error and returns the unchanged copy of the input.  This does not extend
to all explicit schemes: `MidpointLeapfrog` returns Python `None` on
such strings, and `FTCS`/`FTBCS`/`DuFortFrankel` treat every such
string as viscous Burgers and proceed into that computation instead. -/
theorem spec_C10 (M : String) (Uo : NDArr) (conv C : ℚ)
    (hd : Uo.shape.length ≠ 2) (h1 : pyUpper M ≠ "FO_WAVE")
    (h2 : pyUpper M ≠ "INV_BURGERS") :
    ExplicitFirstUpwind M conv Uo C = .ok ⟨Uo.shape, Uo.data⟩ ∧
    Lax M Uo C = .ok ⟨Uo.shape, Uo.data⟩ ∧
    LaxWendroff M Uo C = .ok ⟨Uo.shape, Uo.data⟩ ∧
    FourthOrderRungeKutta M Uo C = .ok ⟨Uo.shape, Uo.data⟩ ∧
    MidpointLeapfrog M Uo C = .ok none := by
  refine ⟨?_, ?_, ?_, ?_, ?_⟩
  · unfold ExplicitFirstUpwind
    rw [if_neg hd]
    dsimp only
    rw [if_neg h1, if_neg h2]
  · unfold Lax
    rw [if_neg hd]
    dsimp only
    rw [if_neg h1, if_neg h2]
  · unfold LaxWendroff
    rw [if_neg hd]
    dsimp only
    rw [if_neg h1, if_neg h2]
  · unfold FourthOrderRungeKutta
    rw [if_neg hd]
    dsimp only
    rw [if_neg h1, if_neg h2]
  · unfold MidpointLeapfrog
    rw [if_neg hd, if_neg h1, if_neg h2]

/-- C10 (witness): the amended statement applied at the claim's own
example — the viscous-Burgers model string passed to the four schemes —
on the state `[0, 1, 0]`. -/
theorem spec_C10_witness :
    ExplicitFirstUpwind "VISC_BURGERS" 1 ⟨[3], [0, 1, 0]⟩ (1/2) =
      .ok ⟨[3], [0, 1, 0]⟩ ∧
    Lax "VISC_BURGERS" ⟨[3], [0, 1, 0]⟩ (1/2) = .ok ⟨[3], [0, 1, 0]⟩ ∧
    LaxWendroff "VISC_BURGERS" ⟨[3], [0, 1, 0]⟩ (1/2) = .ok ⟨[3], [0, 1, 0]⟩ ∧
    FourthOrderRungeKutta "VISC_BURGERS" ⟨[3], [0, 1, 0]⟩ (1/2) =
      .ok ⟨[3], [0, 1, 0]⟩ ∧
    MidpointLeapfrog "VISC_BURGERS" ⟨[3], [0, 1, 0]⟩ (1/2) = .ok none :=
  spec_C10 "VISC_BURGERS" ⟨[3], [0, 1, 0]⟩ 1 (1/2) (by decide) (by decide)
    (by decide)

/-- C2: whenever a scheme returns a state on a 1-D input, the output has
the input's length and its two boundary entries unchanged (`framePres`).
Schemes that return states do so either by slice-assigning an
interior-length right-hand side into a copy of the input, by writing
checked indices `1..N-2` in a loop, by an unchanged copy on the
fall-through branch, or (CrankNicolson) through the modelled tridiagonal
solver, which writes only interior entries of the buffer it is given;
`MidpointLeapfrog`, `SecondOrderTVD`, `DuFortFrankel` and `BTBCS` never
return a state at all. -/
theorem spec_C2 :
    (∀ M conv C (Uo V : NDArr), Uo.shape = [Uo.data.length] →
      ExplicitFirstUpwind M conv Uo C = .ok V →
      V.shape = Uo.shape ∧ framePres Uo.data V.data) ∧
    (∀ M C (Uo V : NDArr), Uo.shape = [Uo.data.length] →
      Lax M Uo C = .ok V → V.shape = Uo.shape ∧ framePres Uo.data V.data) ∧
    (∀ M C (Uo V : NDArr), Uo.shape = [Uo.data.length] →
      MidpointLeapfrog M Uo C = .ok (some V) →
      V.shape = Uo.shape ∧ framePres Uo.data V.data) ∧
    (∀ M C (Uo V : NDArr), Uo.shape = [Uo.data.length] →
      LaxWendroff M Uo C = .ok V →
      V.shape = Uo.shape ∧ framePres Uo.data V.data) ∧
    (∀ M iM C (Uo V : NDArr), Uo.shape = [Uo.data.length] →
      LaxWendroffMultiStep M iM Uo C = .ok V →
      V.shape = Uo.shape ∧ framePres Uo.data V.data) ∧
    (∀ M C dX (Uo V : NDArr), Uo.shape = [Uo.data.length] →
      MacCormack M Uo C dX = .ok V →
      V.shape = Uo.shape ∧ framePres Uo.data V.data) ∧
    (∀ M C (Uo V : NDArr), Uo.shape = [Uo.data.length] →
      FourthOrderRungeKutta M Uo C = .ok V →
      V.shape = Uo.shape ∧ framePres Uo.data V.data) ∧
    (∀ M C dX (Uo V : NDArr), Uo.shape = [Uo.data.length] →
      ModifiedRungeKutta M Uo C dX = .ok V →
      V.shape = Uo.shape ∧ framePres Uo.data V.data) ∧
    (∀ M C dX (Uo V : NDArr), Uo.shape = [Uo.data.length] →
      EulersBTCS M Uo C dX = .ok V →
      V.shape = Uo.shape ∧ framePres Uo.data V.data) ∧
    (∀ M iM C (Uo V : NDArr), Uo.shape = [Uo.data.length] →
      CrankNicolson M iM Uo C = .ok V →
      V.shape = Uo.shape ∧ framePres Uo.data V.data) ∧
    (∀ M C (Uo V : NDArr), Uo.shape = [Uo.data.length] →
      BeamAndWarming M Uo C = .ok V →
      V.shape = Uo.shape ∧ framePres Uo.data V.data) ∧
    (∀ M iM C (Uo V : NDArr), Uo.shape = [Uo.data.length] →
      FirstOrderTVD M iM Uo C = .ok V →
      V.shape = Uo.shape ∧ framePres Uo.data V.data) ∧
    (∀ M C LF L Eps opts (Uo V : NDArr), Uo.shape = [Uo.data.length] →
      SecondOrderTVD M Uo C LF L Eps opts = .ok V →
      V.shape = Uo.shape ∧ framePres Uo.data V.data) ∧
    (∀ M C dX (Uo V : NDArr), Uo.shape = [Uo.data.length] →
      FTCS M Uo C dX = .ok V →
      V.shape = Uo.shape ∧ framePres Uo.data V.data) ∧
    (∀ M C dX (Uo V : NDArr), Uo.shape = [Uo.data.length] →
      FTBCS M Uo C dX = .ok V →
      V.shape = Uo.shape ∧ framePres Uo.data V.data) ∧
    (∀ M C dX (Uo Uo2 V : NDArr), Uo.shape = [Uo.data.length] →
      DuFortFrankel M Uo Uo2 C dX = .ok V →
      V.shape = Uo.shape ∧ framePres Uo.data V.data) ∧
    (∀ M C dX Acc (Uo V : NDArr), Uo.shape = [Uo.data.length] →
      BTBCS M Uo C dX Acc = .ok V →
      V.shape = Uo.shape ∧ framePres Uo.data V.data) := by
  refine ⟨?_, ?_, ?_, ?_, ?_, ?_, ?_, ?_, ?_, ?_, ?_, ?_, ?_, ?_, ?_, ?_, ?_⟩
  · exact fun M conv C Uo V h1 h => ExplicitFirstUpwind_frame M conv C Uo V h
  · exact fun M C Uo V h1 h => Lax_frame M C Uo V h
  · exact fun M C Uo V h1 h => (MidpointLeapfrog_never_state M C Uo V h).elim
  · exact fun M C Uo V h1 h => LaxWendroff_frame M C Uo V h
  · exact fun M iM C Uo V h1 h => LaxWendroffMultiStep_frame M iM C Uo V h
  · exact fun M C dX Uo V h1 h => MacCormack_frame M C dX Uo V h
  · exact fun M C Uo V h1 h => FourthOrderRungeKutta_frame M C Uo V h
  · exact fun M C dX Uo V h1 h => ModifiedRungeKutta_frame M C dX Uo V h
  · exact fun M C dX Uo V h1 h => EulersBTCS_frame M C dX Uo V h
  · exact fun M iM C Uo V h1 h => CrankNicolson_frame M iM C Uo V h
  · exact fun M C Uo V h1 h => BeamAndWarming_frame M C Uo V h
  · exact fun M iM C Uo V h1 h => FirstOrderTVD_frame M iM C Uo V h
  · exact fun M C LF L Eps opts Uo V h1 h =>
      (SecondOrderTVD_never_state M C Uo V LF L Eps opts h).elim
  · exact fun M C dX Uo V h1 h => FTCS_frame M C dX Uo V h
  · exact fun M C dX Uo V h1 h => FTBCS_frame M C dX Uo V h
  · exact fun M C dX Uo Uo2 V h1 h =>
      (DuFortFrankel_never_state M C dX Uo Uo2 V h).elim
  · exact fun M C dX Acc Uo V h1 h =>
      (BTBCS_never_state M C dX Uo V Acc h).elim

/-- C2 (witness): the `Lax` conjunct applied at the 5-node state
`[0, 1, 2, 1, 0]` (which `Lax` maps to `[0, 1/2, 1, 3/2, 0]`): same
length, boundaries `0` and `0` unchanged. -/
theorem spec_C2_witness :
    (⟨[5], [0, 1/2, 1, 3/2, 0]⟩ : NDArr).shape =
        (⟨[5], [0, 1, 2, 1, 0]⟩ : NDArr).shape ∧
      framePres [0, 1, 2, 1, 0] [0, 1/2, 1, 3/2, 0] :=
  spec_C2.2.1 "FO_WAVE" (1/2) ⟨[5], [0, 1, 2, 1, 0]⟩
    ⟨[5], [0, 1/2, 1, 3/2, 0]⟩ (by decide)
    (by norm_num [Lax, (by decide : pyUpper "FO_WAVE" = "FO_WAVE"), setMid,
      laxWaveRhs, mid, left, right, subL, addL, smulL, List.dropLast])

/-- C7: in `FirstOrderTVD`'s update loop, the local characteristic speed
at each of the two faces of node `i` — `alphaiPlus12` and
`alphaiMinus12`, the exact quantities `FirstOrderTVDStep` uses — equals
the flux difference divided by the state difference (`CalcUi`) across
that face, except that when the state difference is exactly zero the
speed is taken to be `Uo[i]`.  The division is performed only under the
hypothesis that the state difference is nonzero, so no face ever
divides by zero. -/
theorem spec_C7 :
    (∀ (Uo E : List ℚ) (i : ℤ) (up ui : ℚ),
      pyIdx Uo (i + 1) = .ok up → pyIdx Uo i = .ok ui →
      ((CalcUi up ui = 0 → alphaiPlus12 Uo E i = .ok ui) ∧
       (CalcUi up ui ≠ 0 → ∀ eip ei, pyIdx E (i + 1) = .ok eip →
          pyIdx E i = .ok ei →
          alphaiPlus12 Uo E i = .ok ((eip - ei) / CalcUi up ui)))) ∧
    (∀ (Uo E : List ℚ) (i : ℤ) (ui uim : ℚ),
      pyIdx Uo i = .ok ui → pyIdx Uo (i - 1) = .ok uim →
      ((CalcUi ui uim = 0 → alphaiMinus12 Uo E i = .ok ui) ∧
       (CalcUi ui uim ≠ 0 → ∀ ei eim, pyIdx E i = .ok ei →
          pyIdx E (i - 1) = .ok eim →
          alphaiMinus12 Uo E i = .ok ((ei - eim) / CalcUi ui uim)))) := by
  constructor
  · intro Uo E i up ui hup hui
    constructor
    · intro h0
      unfold alphaiPlus12
      rw [hup, hui]
      dsimp only
      rw [if_pos h0]
    · intro hne eip ei heip hei
      unfold alphaiPlus12
      rw [hup, hui]
      dsimp only
      rw [if_neg hne, heip, hei]
  · intro Uo E i ui uim hui huim
    constructor
    · intro h0
      unfold alphaiMinus12
      rw [hui, huim]
      dsimp only
      rw [if_pos h0]
    · intro hne ei eim hei heim
      unfold alphaiMinus12
      rw [hui, huim]
      dsimp only
      rw [if_neg hne, heim, hei]

/-- C7 (witness): on `Uo = [0, 1, 1, 2, 0]` (flux `E = Uo*Uo/2`) at
node `i = 2`: the left face has zero state difference, so
`alphaiMinus12 = Uo[2] = 1`; the right face has state difference `1`,
so `alphaiPlus12 = (E[3] - E[2]) / 1 = 3/2`. -/
theorem spec_C7_witness :
    alphaiMinus12 [0, 1, 1, 2, 0] (fluxE [0, 1, 1, 2, 0]) 2 = .ok 1 ∧
    alphaiPlus12 [0, 1, 1, 2, 0] (fluxE [0, 1, 1, 2, 0]) 2 = .ok (3/2) := by
  constructor
  · exact ((spec_C7.2 [0, 1, 1, 2, 0] (fluxE [0, 1, 1, 2, 0]) 2 1 1
      (by simp [pyIdx]) (by simp [pyIdx])).1
      (by norm_num [CalcUi]))
  · have h := (spec_C7.1 [0, 1, 1, 2, 0] (fluxE [0, 1, 1, 2, 0]) 2 2 1
      (by simp [pyIdx]) (by simp [pyIdx])).2
      (by norm_num [CalcUi]) 2 (1/2)
      (by simp [pyIdx, fluxE]) (by simp [pyIdx, fluxE])
    rw [h]
    norm_num [CalcUi]

/-- C9: copy-on-write.  In the buffer-level embedding — where buffer 0
holds the caller's `Uo` contents (and buffer 1 holds `Uo2`'s for
`DuFortFrankel`) and every element or slice assignment of each scheme is
a store to the buffer its target names — the caller's buffers are
unchanged after every call of every scheme, on returning and on raising
paths alike: each scheme writes only into freshly allocated `.copy()`
buffers and temporaries. -/
theorem spec_C9 :
    (∀ M conv sh Uo C, (ExplicitFirstUpwindMem M conv sh Uo C).getB 0 = Uo) ∧
    (∀ M sh Uo C, (LaxMem M sh Uo C).getB 0 = Uo) ∧
    (∀ M sh Uo C, (MidpointLeapfrogMem M sh Uo C).getB 0 = Uo) ∧
    (∀ M sh Uo C, (LaxWendroffMem M sh Uo C).getB 0 = Uo) ∧
    (∀ M iM sh Uo C, (LaxWendroffMultiStepMem M iM sh Uo C).getB 0 = Uo) ∧
    (∀ M sh Uo C dX, (MacCormackMem M sh Uo C dX).getB 0 = Uo) ∧
    (∀ M sh Uo C, (FourthOrderRungeKuttaMem M sh Uo C).getB 0 = Uo) ∧
    (∀ M sh Uo C dX, (ModifiedRungeKuttaMem M sh Uo C dX).getB 0 = Uo) ∧
    (∀ M sh Uo C dX, (EulersBTCSMem M sh Uo C dX).getB 0 = Uo) ∧
    (∀ M iM sh Uo C, (CrankNicolsonMem M iM sh Uo C).getB 0 = Uo) ∧
    (∀ M sh Uo C, (BeamAndWarmingMem M sh Uo C).getB 0 = Uo) ∧
    (∀ M iM sh Uo C, (FirstOrderTVDMem M iM sh Uo C).getB 0 = Uo) ∧
    (∀ M sh Uo C LF L Eps opts,
      (SecondOrderTVDMem M sh Uo C LF L Eps opts).getB 0 = Uo) ∧
    (∀ M sh Uo C dX, (FTCSMem M sh Uo C dX).getB 0 = Uo) ∧
    (∀ M sh Uo C dX, (FTBCSMem M sh Uo C dX).getB 0 = Uo) ∧
    (∀ M sh Uo Uo2 C dX, (DuFortFrankelMem M sh Uo Uo2 C dX).getB 0 = Uo ∧
      (DuFortFrankelMem M sh Uo Uo2 C dX).getB 1 = Uo2) ∧
    (∀ M sh Uo C dX Acc, (BTBCSMem M sh Uo C dX Acc).getB 0 = Uo) :=
  ⟨ExplicitFirstUpwindMem_keeps, LaxMem_keeps, MidpointLeapfrogMem_keeps,
   LaxWendroffMem_keeps, LaxWendroffMultiStepMem_keeps, MacCormackMem_keeps,
   FourthOrderRungeKuttaMem_keeps, ModifiedRungeKuttaMem_keeps,
   EulersBTCSMem_keeps, CrankNicolsonMem_keeps, BeamAndWarmingMem_keeps,
   FirstOrderTVDMem_keeps, SecondOrderTVDMem_keeps, FTCSMem_keeps,
   FTBCSMem_keeps, DuFortFrankelMem_keeps, BTBCSMem_keeps⟩
